import Mathlib

/-
  Verification of the tapstack userspace TCP stack (src/tcp.rs, src/tun.rs).

  Shallow embedding conventions:
  * u32 sequence numbers are Nat; wrapping_add is modelled by wadd (mod 2^32);
    plain Rust additions that would wrap in release builds are also modelled
    with wadd.  Plain u32 comparisons are Nat comparisons (linear order), as
    in the source.
  * std::time::Instant and f64 seconds (srtt, rttvar, rto) are modelled
    exactly in integer microseconds (Int): 1.0 s = 1000000, 0.01 s = 10000,
    60 s = 60000000; Instant::duration_since t = now - t, and the RFC-6298
    fractions 0.875/0.125/0.75/0.25/0.5 are integer-microsecond divisions
    (the claims proved here never depend on the estimator's rounding).
  * BTreeMap is an association list with unique keys; first_entry is the
    entry with the least key (mapMinKey).
  * transmit_payload is modelled as emitting a Segment (TCP header + payload)
    into the returned output list; the IPv4 encapsulation, checksums and the
    mpsc channel are outside the TCB logic and are abstracted away.
  * Rust panics (todo!, index out of bounds, remainder by zero) make an
    operation return none.
-/

set_option maxHeartbeats 1600000
set_option maxRecDepth 4096

namespace Tapstack

/-- The constant 2^32 used for u32 wrap-around. -/
def u32Mod : Nat := 4294967296

/-- u32 wrapping addition (`wrapping_add`, and plain `+` in release builds). -/
def wadd (a b : Nat) : Nat := (a + b) % u32Mod

/-- The eleven TCP states of tcp.rs. -/
inductive TcpState
  | Listen
  | SynSent
  | SynReceived
  | Established
  | FinWait1
  | FinWait2
  | CloseWait
  | Closing
  | LastAck
  | TimeWait
  | Closed
deriving DecidableEq, Repr

/-- The mutable part of the etherparse TcpHeader template that tcp.rs reads or
writes (ns/urg/ece/cwr, checksum, urgent pointer and options are constant and
never consulted). -/
structure TcpHeader where
  source_port : Nat
  destination_port : Nat
  sequence_number : Nat
  acknowledgment_number : Nat
  fin : Bool
  syn : Bool
  rst : Bool
  psh : Bool
  ack : Bool
  window_size : Nat
deriving DecidableEq, Repr

/-- An inbound parsed segment (the etherparse TcpSlice accessors used by
on_packet). -/
structure TcpSlice where
  sequence_number : Nat
  acknowledgment_number : Nat
  window_size : Nat
  fin : Bool
  syn : Bool
  rst : Bool
  ack : Bool
  payload : List Nat
deriving DecidableEq, Repr

/-- An outbound transmission: the header clone passed to transmit_payload plus
the payload bytes. -/
structure Segment where
  header : TcpHeader
  payload : List Nat
deriving DecidableEq, Repr

/-- BTreeMap.get. -/
def mapFind {α : Type} : List (Nat × α) → Nat → Option α
  | [], _ => none
  | (k, v) :: rest, key => if k = key then some v else mapFind rest key

/-- BTreeMap.insert (replaces an existing entry with the same key). -/
def mapInsert {α : Type} : List (Nat × α) → Nat → α → List (Nat × α)
  | [], key, val => [(key, val)]
  | (k, v) :: rest, key, val =>
      if k = key then (key, val) :: rest else (k, v) :: mapInsert rest key val

/-- BTreeMap.retain. -/
def mapFilter {α : Type} (m : List (Nat × α)) (p : Nat → Bool) : List (Nat × α) :=
  m.filter (fun kv => p kv.1)

/-- BTreeMap.first_entry: the entry with the least key. -/
def mapMinKey {α : Type} : List (Nat × α) → Option (Nat × α)
  | [] => none
  | kv :: rest =>
      match mapMinKey rest with
      | none => some kv
      | some kv' => if kv.1 ≤ kv'.1 then some kv else some kv'

/-- Vec::resize(n, 0) (after reserve_exact, which has no semantic effect). -/
def vecResize (v : List Nat) (n : Nat) : List Nat :=
  v.take n ++ List.replicate (n - v.length) 0

/-- The segment-acceptability test exactly as computed at tcp.rs lines
375-382: plain (linear) u32 comparisons on recv_next, the sequence number and
recv_next + window, with seq_with_len = SEQ + max(L,1) - 1 (wrapping). -/
def segmentAcceptable (recvNext windowSize seq payloadLen : Nat) : Bool :=
  let recvSeqWithLen := wadd recvNext windowSize
  let seqWithLen := wadd seq (max payloadLen 1 - 1)
  (decide (recvNext ≤ seq) && decide (seq < recvSeqWithLen)) ||
  (decide (recvNext ≤ seqWithLen) && decide (seqWithLen < recvSeqWithLen))

/-- Distance from base to x in the cyclic order of u32 sequence space. -/
def cyclicDist (base x : Nat) : Nat := (x + u32Mod - base % u32Mod) % u32Mod

/-- The RFC-793 acceptability condition in the spec's words (spec section 4.1):
for L = 0, RCV.NXT <= S < RCV.NXT + W; otherwise that disjunct or
RCV.NXT <= S + L - 1 < RCV.NXT + W, all comparisons in the cyclic order
starting at RCV.NXT.  Written here for comparison with segmentAcceptable,
which is the test the source actually computes. -/
def rfc793Acceptable (recvNext windowSize seq payloadLen : Nat) : Bool :=
  if payloadLen = 0 then decide (cyclicDist recvNext seq < windowSize)
  else decide (cyclicDist recvNext seq < windowSize) ||
       decide (cyclicDist recvNext (wadd seq (payloadLen - 1)) < windowSize)

/-- The Transmission Control Block of tcp.rs (struct TcpSocket).  IP
addresses, the condvar and the mpsc sender are omitted: they carry no
TCB-state semantics in the embedded operations.  partial_segments of the
source is named pending_segments here. -/
structure TcpSocket where
  send_unack : Nat
  send_next : Nat
  recv_next : Nat
  send_window : List Nat
  recv_window : List Nat
  srtt : Int
  rttvar : Int
  rto : Int
  syn_seq : Nat
  fin_seq : Option Nat
  header : TcpHeader
  state : TcpState
  pending_segments : List (Nat × List Nat)
  timers : List (Nat × Bool × Int)
  time_wait_instant : Option Int
deriving DecidableEq, Repr

/-- TcpSocket::new (tcp.rs lines 115-161) with the random ISS as a
parameter. -/
def TcpSocket.new (iss srcPort dstPort : Nat) : TcpSocket :=
  { send_unack := iss
    send_next := wadd iss 1
    recv_next := 0
    send_window := []
    recv_window := []
    srtt := 0
    rttvar := 0
    rto := 1000000
    syn_seq := iss
    fin_seq := none
    header :=
      { source_port := srcPort
        destination_port := dstPort
        sequence_number := iss
        acknowledgment_number := 0
        fin := false
        syn := false
        rst := false
        psh := false
        ack := false
        window_size := 65535 }
    state := TcpState.Listen
    pending_segments := []
    timers := []
    time_wait_instant := none }

/-- TcpSocket::set_state (tcp.rs lines 190-200): records the state and stamps
time_wait_instant when entering TIME_WAIT (the condvar notification has no
TCB-state effect). -/
def TcpSocket.set_state (s : TcpSocket) (st : TcpState) (now : Int) : TcpSocket :=
  { s with
    state := st
    time_wait_instant :=
      if st = TcpState.TimeWait then some now else s.time_wait_instant }

/-- TcpSocket::connect (tcp.rs lines 167-173): raise SYN in the template, go
to SYN_SENT, insert the timer keyed by the ISS, transmit the template. -/
def TcpSocket.connect (s : TcpSocket) (now : Int) : TcpSocket × Segment :=
  let hd := { s.header with syn := true }
  let s1 :=
    { s with
      header := hd
      state := TcpState.SynSent
      timers := mapInsert s.timers s.syn_seq (false, now) }
  (s1, ⟨s1.header, []⟩)

/-- The (srtt, rttvar, rto) triple computed by TcpSocket::on_rtt_measurement
(tcp.rs lines 203-226, RFC 6298); the early returns (retransmitted entry, or
no entry at the acked key) leave the triple unchanged. -/
def rttTriple (s : TcpSocket) (ack : Nat) (now : Int) : Int × Int × Int :=
  match mapFind s.timers ack with
  | none => (s.srtt, s.rttvar, s.rto)
  | some (retransmitted, instant) =>
      if retransmitted = true then (s.srtt, s.rttvar, s.rto)
      else
        let r := now - instant
        let reset :=
          s.srtt = 0 ∨ s.rto > max (s.srtt + max (4 * s.rttvar) 10000) 1000000
        let srtt' := if reset then r else (7 * s.srtt + r) / 8
        let rttvar' :=
          if reset then r / 2 else (3 * s.rttvar + |s.srtt - r|) / 4
        (srtt', rttvar', max (srtt' + max (4 * rttvar') 10000) 1000000)

/-- TcpSocket::on_rtt_measurement: only srtt, rttvar and rto change. -/
def TcpSocket.on_rtt_measurement (s : TcpSocket) (ack : Nat) (now : Int) : TcpSocket :=
  { s with
    srtt := (rttTriple s ack now).1
    rttvar := (rttTriple s ack now).2.1
    rto := (rttTriple s ack now).2.2 }

/-- The ACK used for duplicate ACKs, challenge ACKs, payload ACKs and FIN
ACKs (tcp.rs lines 386-390, 405-409, 486-490, 499-503, all identical):
template clone with SEQ = SND.NXT, ACK = RCV.NXT, ACK flag set. -/
def TcpSocket.dupAck (s : TcpSocket) : Segment :=
  ⟨{ s.header with
      sequence_number := s.send_next
      acknowledgment_number := s.recv_next
      ack := true }, []⟩

/-- The ACK transmitted by the FIN step of on_packet when applied to a state
whose RCV.NXT is still s.recv_next: SEQ = SND.NXT, ACK = RCV.NXT + 1. -/
def finAckOf (s : TcpSocket) : Segment :=
  ⟨{ s.header with
      sequence_number := s.send_next
      acknowledgment_number := wadd s.recv_next 1
      ack := true }, []⟩

/-- The extra ACK transmitted by the acked-FIN processing in TIME_WAIT
(tcp.rs lines 449-455): template clone with ACK = segment.SEQ (the template's
sequence number is left as is). -/
def ackOfFinOf (s : TcpSocket) (pkt : TcpSlice) : Segment :=
  ⟨{ s.header with
      acknowledgment_number := pkt.sequence_number
      ack := true }, []⟩

/-- ACK-processing step of on_packet (tcp.rs lines 424-430): an ACK strictly
inside (SND.UNA, SND.NXT] takes an RTT measurement and advances SND.UNA.
The comparisons are the source's plain u32 comparisons. -/
def TcpSocket.ackAdvance (s : TcpSocket) (pkt : TcpSlice) (now : Int) : TcpSocket :=
  if s.send_unack < pkt.acknowledgment_number ∧
     pkt.acknowledgment_number ≤ s.send_next then
    { s.on_rtt_measurement pkt.acknowledgment_number now with
      send_unack := pkt.acknowledgment_number }
  else s

/-- fin_acked of on_packet (tcp.rs lines 432-436). -/
def TcpSocket.finAcked (s : TcpSocket) : Bool :=
  match s.fin_seq with
  | some seq => s.send_unack = seq
  | none => false

/-- The state transitions driven by an acked FIN (tcp.rs lines 441-457),
except the LAST_ACK arm, which returns from on_packet early and is handled by
the caller. -/
def TcpSocket.finAckedTrans (s : TcpSocket) (pkt : TcpSlice) (now : Int) :
    TcpSocket × List Segment :=
  match s.state with
  | TcpState.FinWait1 => (s.set_state TcpState.FinWait2 now, [])
  | TcpState.Closing => (s.set_state TcpState.TimeWait now, [])
  | TcpState.TimeWait =>
      let s1 := s.set_state TcpState.TimeWait now
      (s1, [⟨{ s1.header with
                acknowledgment_number := pkt.sequence_number
                ack := true }, []⟩])
  | _ => (s, [])

/-- The fin_acked processing step of dataStep: when the local FIN is covered
by SND.UNA, run the acked-FIN transitions, else do nothing. -/
def TcpSocket.ackedFinBranch (s : TcpSocket) (pkt : TcpSlice) (now : Int) :
    TcpSocket × List Segment :=
  if s.finAcked = true then s.finAckedTrans pkt now else (s, [])

/-- The out-of-order coalescing loop of on_packet (tcp.rs lines 472-475),
with fuel: the source's while loop looks the advancing recv_next up in
partial_segments; payloads are nonempty there, so each iteration consumes a
distinct entry and the map's size bounds the iteration count (the loop is
called with fuel = number of entries). -/
def coalesceAux (pend : List (Nat × List Nat)) (rw : List Nat) (rn : Nat) :
    Nat → List Nat × Nat
  | 0 => (rw, rn)
  | n + 1 =>
      match mapFind pend rn with
      | some p => coalesceAux pend (rw ++ p) (wadd rn p.length) n
      | none => (rw, rn)

/-- The payload-ingestion state change of on_packet (tcp.rs lines 465-483):
in-order payloads append to recv_window, advance RCV.NXT, coalesce
partial_segments and prune keys ≤ the new RCV.NXT; out-of-order payloads are
stored in partial_segments. -/
def TcpSocket.payloadIngest (s : TcpSocket) (pkt : TcpSlice) : TcpSocket :=
  if pkt.sequence_number = s.recv_next then
    let q := coalesceAux s.pending_segments (s.recv_window ++ pkt.payload)
      (wadd s.recv_next pkt.payload.length) s.pending_segments.length
    { s with
      recv_window := q.1
      recv_next := q.2
      pending_segments :=
        mapFilter s.pending_segments (fun k => decide (q.2 < k)) }
  else
    { s with
      pending_segments :=
        mapInsert s.pending_segments pkt.sequence_number pkt.payload }

/-- Payload step of on_packet (tcp.rs lines 461-492): nonempty payloads are
processed only in ESTABLISHED, FIN_WAIT_1 and FIN_WAIT_2, and always elicit
one ACK of the resulting state. -/
def TcpSocket.payloadStep (s : TcpSocket) (pkt : TcpSlice) :
    TcpSocket × List Segment :=
  if pkt.payload = [] then (s, [])
  else
    match s.state with
    | TcpState.Established | TcpState.FinWait1 | TcpState.FinWait2 =>
        let s1 := s.payloadIngest pkt
        (s1, [s1.dupAck])
    | _ => (s, [])

/-- The state transition driven by an inbound FIN (tcp.rs lines 505-515). -/
def TcpSocket.finTrans (s : TcpSocket) (now : Int) (fa : Bool) : TcpSocket :=
  match s.state with
  | TcpState.Established => s.set_state TcpState.CloseWait now
  | TcpState.FinWait1 =>
      if fa = true then s.set_state TcpState.TimeWait now else s
  | TcpState.FinWait2 => s.set_state TcpState.TimeWait now
  | TcpState.TimeWait => s.set_state TcpState.TimeWait now
  | _ => s

/-- FIN step of on_packet (tcp.rs lines 494-516): a FIN whose sequence number
equals the current RCV.NXT advances RCV.NXT by one (plain u32 increment,
wrapping in release builds), transmits an ACK and drives finTrans; fa is the
fin_acked flag computed earlier in the call. -/
def TcpSocket.finStep (s : TcpSocket) (pkt : TcpSlice) (now : Int) (fa : Bool) :
    TcpSocket × List Segment :=
  if pkt.fin = true ∧ pkt.sequence_number = s.recv_next then
    let s1 := { s with recv_next := wadd s.recv_next 1 }
    (s1.finTrans now fa, [s1.dupAck])
  else (s, [])

/-- on_packet in the seven synchronized states ESTABLISHED, FIN_WAIT_1,
FIN_WAIT_2, CLOSE_WAIT, CLOSING, LAST_ACK, TIME_WAIT (tcp.rs lines 368-519):
acceptability check, RST handling, SYN = todo! (none), ACK requirement, ACK
advance, fin_acked transitions (LAST_ACK returns early), payload step, FIN
step. -/
def TcpSocket.dataStep (s : TcpSocket) (pkt : TcpSlice) (now : Int) :
    Option (TcpSocket × List Segment) :=
  if segmentAcceptable s.recv_next s.header.window_size pkt.sequence_number
      pkt.payload.length = false then
    if pkt.rst = false then some (s, [s.dupAck]) else some (s, [])
  else if pkt.rst = true then
    if pkt.sequence_number = s.recv_next then
      some (s.set_state TcpState.Closed now, [])
    else some (s, [s.dupAck])
  else if pkt.syn = true then none
  else if pkt.ack = false then some (s, [])
  else
    let s1 := s.ackAdvance pkt now
    let fa := s1.finAcked
    if fa = true ∧ s1.state = TcpState.LastAck then
      some (s1.set_state TcpState.Closed now, [])
    else
      let p2 := s1.ackedFinBranch pkt now
      let p3 := p2.1.payloadStep pkt
      let p4 := p3.1.finStep pkt now fa
      some (p4.1, p2.2 ++ p3.2 ++ p4.2)

/-- on_packet in SYN_SENT (tcp.rs lines 318-367). -/
def TcpSocket.synSentStep (s : TcpSocket) (pkt : TcpSlice) (now : Int) :
    TcpSocket × List Segment :=
  if pkt.ack = false then (s, [])
  else if pkt.rst = true then (s.set_state TcpState.Closed now, [])
  else if pkt.acknowledgment_number ≠ s.send_next then
    (s.set_state TcpState.CloseWait now,
     [⟨{ s.header with
          syn := false
          ack := false
          rst := true
          sequence_number := pkt.acknowledgment_number }, []⟩])
  else if pkt.syn = true then
    let s1 :=
      { s with
        recv_next := wadd pkt.sequence_number 1
        send_unack := pkt.acknowledgment_number }
    let hd :=
      { s1.header with
        sequence_number := s1.send_next
        acknowledgment_number := s1.recv_next
        syn := false
        ack := true
        window_size := pkt.window_size }
    let s2 :=
      { s1 with
        header := hd
        send_window := vecResize s1.send_window pkt.window_size }
    let s3 := s2.on_rtt_measurement pkt.acknowledgment_number now
    let s4 := s3.set_state TcpState.Established now
    (s4, [⟨s4.header, []⟩])
  else (s, [])

/-- on_packet in CLOSED (tcp.rs lines 520-539): RST dropped silently; any
other segment elicits one RST built from the template; the TCB itself is
untouched. -/
def TcpSocket.closedStep (s : TcpSocket) (pkt : TcpSlice) :
    TcpSocket × List Segment :=
  if pkt.rst = true then (s, [])
  else
    let hd0 := { s.header with rst := true }
    let hd :=
      if pkt.ack = false then
        { hd0 with
          sequence_number := 0
          acknowledgment_number := wadd pkt.sequence_number pkt.payload.length
          ack := true }
      else { hd0 with sequence_number := pkt.acknowledgment_number }
    (s, [⟨hd, []⟩])

/-- TcpSocket::on_packet (tcp.rs lines 310-541).  LISTEN and SYN_RECEIVED hit
todo!, modelled as none. -/
def TcpSocket.on_packet (s : TcpSocket) (pkt : TcpSlice) (now : Int) :
    Option (TcpSocket × List Segment) :=
  match s.state with
  | TcpState.Listen => none
  | TcpState.SynReceived => none
  | TcpState.SynSent => some (s.synSentStep pkt now)
  | TcpState.Closed => some (s.closedStep pkt)
  | _ => s.dataStep pkt now

/-- TcpSocket::tick (tcp.rs lines 229-308): purge acked timers, retransmit
the earliest expired timer (SYN / FIN / coalesced send-window suffix), else
send the pending FIN in FIN_WAIT_1, else report cleanup after 2 MSL of
TIME_WAIT (as_secs() > 60 of the source is exactly 61000000 microseconds ≤
elapsed).  The boolean result is the "can be cleaned up" flag.  A data
retransmission with an empty send ring panics in the source (remainder by
zero) and is none here. -/
def TcpSocket.tick (s0 : TcpSocket) (now : Int) :
    Option (TcpSocket × List Segment × Bool) :=
  let s := { s0 with
    timers := mapFilter s0.timers (fun k => decide (s0.send_unack ≤ k)) }
  match mapMinKey s.timers with
  | some (seq, _, instant) =>
      if s.rto ≤ now - instant then
        let s1 :=
          { s with
            timers := mapInsert s.timers seq (true, now)
            rto := min (s.rto * 2) 60000000 }
        if seq = s1.syn_seq then some (s1, [⟨s1.header, []⟩], false)
        else if s1.fin_seq = some seq then some (s1, [⟨s1.header, []⟩], false)
        else
          let len := s1.send_window.length
          if len = 0 then none
          else
            let bIdx := seq % len
            let eIdx := s1.send_next % len
            let hd := { s1.header with sequence_number := seq, psh := true }
            let payload :=
              if bIdx ≤ eIdx then (s1.send_window.drop bIdx).take (eIdx - bIdx)
              else s1.send_window.drop bIdx ++ s1.send_window.take eIdx
            some (s1, [⟨hd, payload⟩], false)
      else some (s, [], false)
  | none =>
      match s.state with
      | TcpState.FinWait1 =>
          if s.fin_seq = none then
            let hd := { s.header with fin := true, sequence_number := s.send_next }
            some ({ s with header := hd, fin_seq := some s.send_next },
                  [⟨hd, []⟩], false)
          else some (s, [], false)
      | _ =>
          match s.time_wait_instant with
          | some t =>
              if 61000000 ≤ now - t then some (s, [], true)
              else some (s, [], false)
          | none => some (s, [], false)

/-- The capacity formula of TcpSocket::write (tcp.rs lines 586-594). -/
def sendCapacity (windowLen una nxt payloadLen : Nat) : Nat :=
  let bIdx := una % windowLen
  let eIdx := nxt % windowLen
  if bIdx ≤ eIdx then min (windowLen - (eIdx - bIdx)) payloadLen
  else bIdx - eIdx

/-- The ring copy of TcpSocket::write (tcp.rs lines 597-599): byte idx of the
payload goes to index (end + idx) mod len. -/
def ringWrite (w : List Nat) (eIdx : Nat) (payload : List Nat) (n : Nat) :
    List Nat :=
  (List.range n).foldl
    (fun acc idx => acc.set ((eIdx + idx) % w.length) (payload.getD idx 0)) w

/-- Result of TcpSocket::write: the NotConnected error or the byte count. -/
inductive WriteOut
  | notConnected
  | wrote (n : Nat)
deriving DecidableEq, Repr

/-- TcpSocket::write (tcp.rs lines 570-614).  Permitted only in ESTABLISHED.
none models the two panics: remainder by zero when the send ring is empty,
and payload[idx] out of bounds when the computed capacity exceeds the payload
length (possible only in the wrapped begin > end case). -/
def TcpSocket.write (s : TcpSocket) (payload : List Nat) (now : Int) :
    Option (TcpSocket × List Segment × WriteOut) :=
  if s.state ≠ TcpState.Established then some (s, [], WriteOut.notConnected)
  else if s.send_window.length = 0 then none
  else if payload.length <
      sendCapacity s.send_window.length s.send_unack s.send_next payload.length
    then none
  else if 0 <
      sendCapacity s.send_window.length s.send_unack s.send_next payload.length
    then
    some
      ({ s with
          send_window := ringWrite s.send_window
            (s.send_next % s.send_window.length) payload
            (sendCapacity s.send_window.length s.send_unack s.send_next
              payload.length)
          timers := mapInsert s.timers s.send_next (false, now)
          header := { s.header with sequence_number := s.send_next }
          send_next := wadd s.send_next
            (sendCapacity s.send_window.length s.send_unack s.send_next
              payload.length) },
       [⟨{ s.header with sequence_number := s.send_next, psh := true },
         payload.take (sendCapacity s.send_window.length s.send_unack
           s.send_next payload.length)⟩],
       WriteOut.wrote
         (sendCapacity s.send_window.length s.send_unack s.send_next
           payload.length))
  else some (s, [], WriteOut.wrote 0)

/-- Result of TcpSocket::read: the NotConnected error or the drained bytes. -/
inductive ReadOut
  | notConnected
  | readData (bytes : List Nat)
deriving DecidableEq, Repr

/-- TcpSocket::read (tcp.rs lines 543-568). -/
def TcpSocket.read (s : TcpSocket) (bufLen : Nat) : TcpSocket × ReadOut :=
  if (match s.state with
      | TcpState.Established | TcpState.FinWait1 | TcpState.FinWait2
      | TcpState.CloseWait => true
      | _ => false) = false ∧ s.recv_window = [] then
    (s, ReadOut.notConnected)
  else
    ({ s with
        recv_window := s.recv_window.drop (min bufLen s.recv_window.length) },
     ReadOut.readData (s.recv_window.take (min bufLen s.recv_window.length)))

/-- TcpSocket::close (tcp.rs lines 616-635): ESTABLISHED → FIN_WAIT_1,
CLOSE_WAIT → LAST_ACK, every other state is a no-op; nothing is
transmitted. -/
def TcpSocket.close (s : TcpSocket) (now : Int) : TcpSocket :=
  match s.state with
  | TcpState.Established => s.set_state TcpState.FinWait1 now
  | TcpState.CloseWait => s.set_state TcpState.LastAck now
  | _ => s

/-- One application/demux operation on a TCB (the operations the demux loop
and the socket handle can invoke after establishment). -/
inductive TcpOp
  | onPacket (pkt : TcpSlice) (now : Int)
  | tickAt (now : Int)
  | writeOp (payload : List Nat) (now : Int)
  | readOp (bufLen : Nat)
  | closeOp (now : Int)

/-- One step of a TCB under an operation, collecting transmissions. -/
def TcpSocket.step (s : TcpSocket) : TcpOp → Option (TcpSocket × List Segment)
  | TcpOp.onPacket pkt now => s.on_packet pkt now
  | TcpOp.tickAt now => (s.tick now).map (fun r => (r.1, r.2.1))
  | TcpOp.writeOp payload now => (s.write payload now).map (fun r => (r.1, r.2.1))
  | TcpOp.readOp bufLen => some ((s.read bufLen).1, [])
  | TcpOp.closeOp now => some (s.close now, [])

/-- Run a sequence of operations, collecting all transmissions. -/
def TcpSocket.run (s : TcpSocket) : List TcpOp → Option (TcpSocket × List Segment)
  | [] => some (s, [])
  | op :: ops =>
      match s.step op with
      | none => none
      | some (s1, out1) =>
          match s1.run ops with
          | none => none
          | some (s2, out2) => some (s2, out1 ++ out2)

/-- The tick pass of the demux loop (tun.rs lines 146-160): on a poll
timeout, TunDevice::read_packets calls tick on every TCB in the four-tuple
table and discards the returned cleanup flag; no entry is ever removed.
Table keys are abstracted to Nat. -/
def tickPass (table : List (Nat × TcpSocket)) (now : Int) :
    Option (List (Nat × TcpSocket)) :=
  match table with
  | [] => some []
  | (k, s) :: rest =>
      match s.tick now, tickPass rest now with
      | some r, some rest' => some ((k, r.1) :: rest')
      | _, _ => none

/-! ### Concrete instances used by the claim theorems and witnesses -/

/-- A TCB that has reached CLOSED via LAST_ACK completion: no timers, no
TIME_WAIT stamp. -/
def c1Closed : TcpSocket := { TcpSocket.new 5 10000 4242 with state := TcpState.Closed }

/-- A TCB sitting in TIME_WAIT since time 0. -/
def c1TimeWait : TcpSocket :=
  { TcpSocket.new 6 10001 4242 with
    state := TcpState.TimeWait
    time_wait_instant := some 0 }

/-- An ESTABLISHED TCB whose receive sequence space is about to wrap:
RCV.NXT = 2^32 - 6 with a 100-byte receive window. -/
def c2sock : TcpSocket :=
  { TcpSocket.new 11 10002 4242 with
    state := TcpState.Established
    recv_next := 4294967290
    header := { (TcpSocket.new 11 10002 4242).header with window_size := 100 } }

/-- An empty in-window segment at SEQ = 2, inside the wrapped window of
c2sock in cyclic order. -/
def c2pkt : TcpSlice :=
  { sequence_number := 2, acknowledgment_number := 0, window_size := 0,
    fin := false, syn := false, rst := false, ack := false, payload := [] }

/-- An ESTABLISHED TCB with two outstanding timers at keys 10 and 20,
SND.UNA = 10, SND.NXT = 30. -/
def c3sock : TcpSocket :=
  { TcpSocket.new 9 10003 4242 with
    state := TcpState.Established
    recv_next := 500
    header := { (TcpSocket.new 9 10003 4242).header with window_size := 100 }
    send_unack := 10
    send_next := 30
    timers := [(10, false, 0), (20, false, 0)] }

/-- A pure ACK advancing SND.UNA of c3sock from 10 to 25. -/
def c3pkt : TcpSlice :=
  { sequence_number := 500, acknowledgment_number := 25, window_size := 0,
    fin := false, syn := false, rst := false, ack := true, payload := [] }

/-- A fresh socket with ISS 42. -/
def c4s0 : TcpSocket := TcpSocket.new 42 10004 4242

/-- c4s0 after connect at time 0 (SYN sent, timer keyed 42). -/
def c4s1 : TcpSocket := (c4s0.connect 0).1

/-- The peer's SYN-ACK: SEQ = 1000, ACK = ISS + 1 = 43, window 3. -/
def c4pkt : TcpSlice :=
  { sequence_number := 1000, acknowledgment_number := 43, window_size := 3,
    fin := false, syn := true, rst := false, ack := true, payload := [] }

/-- An ESTABLISHED TCB with an empty 4-byte send ring
(SND.UNA = SND.NXT = 8). -/
def c5sock : TcpSocket :=
  { TcpSocket.new 3 10005 4242 with
    state := TcpState.Established
    send_window := [0, 0, 0, 0]
    send_unack := 8
    send_next := 8 }

/-- A FIN_WAIT_1 TCB whose own FIN (fin_seq = 99) is not yet acked
(SND.UNA = 50). -/
def c6cs : TcpSocket :=
  { TcpSocket.new 3 10006 4242 with
    state := TcpState.FinWait1
    recv_next := 700
    header := { (TcpSocket.new 3 10006 4242).header with window_size := 50 }
    send_unack := 50
    send_next := 99
    fin_seq := some 99 }

/-- A bare FIN at SEQ = RCV.NXT = 700 whose ACK (50) does not ack the local
FIN. -/
def c6cpkt : TcpSlice :=
  { sequence_number := 700, acknowledgment_number := 50, window_size := 0,
    fin := true, syn := false, rst := false, ack := true, payload := [] }

/-- An ESTABLISHED TCB used to witness the FIN transition. -/
def c6ws : TcpSocket :=
  { TcpSocket.new 3 10007 4242 with
    state := TcpState.Established
    recv_next := 1006
    header := { (TcpSocket.new 3 10007 4242).header with window_size := 64, ack := true }
    send_unack := 120
    send_next := 120 }

/-- A bare FIN at SEQ = RCV.NXT = 1006 for c6ws. -/
def c6wpkt : TcpSlice :=
  { sequence_number := 1006, acknowledgment_number := 120, window_size := 0,
    fin := true, syn := false, rst := false, ack := true, payload := [] }

/-- A CLOSED TCB whose header template has the ACK flag set (as after a
connection was established and then reset). -/
def c7sock : TcpSocket :=
  { TcpSocket.new 3 10008 4242 with
    state := TcpState.Closed
    header := { (TcpSocket.new 3 10008 4242).header with ack := true } }

/-- A non-RST segment carrying an ACK, received by the CLOSED c7sock. -/
def c7pkt : TcpSlice :=
  { sequence_number := 600, acknowledgment_number := 777, window_size := 0,
    fin := false, syn := false, rst := false, ack := true, payload := [] }

/-- A segment without ACK for the CLOSED-handling witness. -/
def c7pktNoAck : TcpSlice :=
  { sequence_number := 600, acknowledgment_number := 0, window_size := 0,
    fin := false, syn := false, rst := false, ack := false, payload := [7, 8] }

/-- An ESTABLISHED TCB whose only timer (key 77) is marked retransmitted. -/
def c8sock : TcpSocket :=
  { TcpSocket.new 3 10009 4242 with
    state := TcpState.Established
    recv_next := 400
    header := { (TcpSocket.new 3 10009 4242).header with window_size := 64 }
    send_unack := 70
    send_next := 90
    srtt := 2500000
    rttvar := 250000
    rto := 3500000
    timers := [(77, true, 0)] }

/-- An ACK at 77, matching the retransmitted timer of c8sock exactly. -/
def c8pkt : TcpSlice :=
  { sequence_number := 400, acknowledgment_number := 77, window_size := 0,
    fin := false, syn := false, rst := false, ack := true, payload := [] }

/-- An ESTABLISHED TCB with a wrapped send ring (begin = 3 > end = 1,
capacity 2): a 1-byte write panics in the source. -/
def c9wrap : TcpSocket :=
  { TcpSocket.new 2 10010 4242 with
    state := TcpState.Established
    send_window := [0, 0, 0, 0]
    send_unack := 3
    send_next := 5 }

/-- An ESTABLISHED TCB whose peer advertised a zero window at SYN-ACK:
the send ring is empty and write's modulus is zero. -/
def c9zero : TcpSocket :=
  { TcpSocket.new 7 10011 4242 with
    state := TcpState.Established
    send_window := [] }

/-- A CLOSE_WAIT TCB with an outstanding data timer, about to close(). -/
def demoCW : TcpSocket :=
  { TcpSocket.new 3 10012 4242 with
    state := TcpState.CloseWait
    recv_next := 800
    header := { (TcpSocket.new 3 10012 4242).header with window_size := 64, ack := true }
    send_unack := 120
    send_next := 125
    send_window := [0, 0, 0, 0, 0, 0, 0, 0]
    timers := [(120, false, 0)] }

/-- A post-close operation sequence exercising tick, on_packet, write, read
and close. -/
def c10ops : List TcpOp :=
  [TcpOp.tickAt 2000000, TcpOp.onPacket c3pkt 2000001,
   TcpOp.writeOp [1, 2] 2000002, TcpOp.readOp 4, TcpOp.closeOp 2000003,
   TcpOp.tickAt 2000004]

/-- The final state and collected output of running c10ops after closing
demoCW. -/
def c10pair : TcpSocket × List Segment :=
  (((demoCW.close 0).run c10ops).getD (demoCW, []))

/-- The result of processing the bare FIN c6wpkt on the ESTABLISHED c6ws. -/
def c6wres : TcpSocket × List Segment :=
  (c6ws.on_packet c6wpkt 7).getD (c6ws, [])

/-- The result of processing c8pkt (whose ACK matches the retransmitted
timer) on c8sock. -/
def c8res : TcpSocket × List Segment :=
  (c8sock.on_packet c8pkt 9).getD (c8sock, [])

/-- An ESTABLISHED TCB with SND.UNA advanced to 25 and one live timer at
key 30 beside a stale one at key 10, used to witness the tick purge. -/
def c3wit : TcpSocket :=
  { c3sock with
    send_unack := 25
    timers := [(10, false, 0), (30, false, 0)] }

/-- c3wit after its tick at time 0: the stale timer at key 10 is purged, the
unexpired timer at key 30 survives. -/
def c3wres : TcpSocket := { c3wit with timers := [(30, false, 0)] }

/-! ### Helper lemmas -/

theorem mem_of_mem_mapFilter {α : Type} {m : List (Nat × α)} {p : Nat → Bool}
    {kv : Nat × α} (h : kv ∈ mapFilter m p) : p kv.1 = true :=
  (List.mem_filter.mp h).2

theorem mem_of_mem_mapInsert {α : Type} {m : List (Nat × α)} {k : Nat} {v : α}
    {kv : Nat × α} (h : kv ∈ mapInsert m k v) : kv = (k, v) ∨ kv ∈ m := by
  induction m with
  | nil =>
      simp only [mapInsert, List.mem_singleton] at h
      exact Or.inl h
  | cons hd tl ih =>
      simp only [mapInsert] at h
      by_cases hk : hd.1 = k
      · rw [if_pos hk] at h
        rcases List.mem_cons.mp h with h1 | h1
        · exact Or.inl h1
        · exact Or.inr (List.mem_cons.mpr (Or.inr h1))
      · rw [if_neg hk] at h
        rcases List.mem_cons.mp h with h1 | h1
        · exact Or.inr (List.mem_cons.mpr (Or.inl h1))
        · rcases ih h1 with h2 | h2
          · exact Or.inl h2
          · exact Or.inr (List.mem_cons.mpr (Or.inr h2))

theorem mapMinKey_mem {α : Type} {m : List (Nat × α)} {kv : Nat × α}
    (h : mapMinKey m = some kv) : kv ∈ m := by
  induction m with
  | nil => simp [mapMinKey] at h
  | cons hd tl ih =>
      simp only [mapMinKey] at h
      cases hmin : mapMinKey tl with
      | none =>
          rw [hmin] at h
          exact List.mem_cons.mpr (Or.inl (Option.some.inj h).symm)
      | some kv' =>
          rw [hmin] at h
          dsimp only at h
          by_cases hle : hd.1 ≤ kv'.1
          · rw [if_pos hle] at h
            exact List.mem_cons.mpr (Or.inl (Option.some.inj h).symm)
          · rw [if_neg hle] at h
            exact List.mem_cons.mpr (Or.inr (ih (hmin.trans (congrArg some (Option.some.inj h)))))

@[simp] theorem set_state_state (s : TcpSocket) (st : TcpState) (now : Int) :
    (s.set_state st now).state = st := rfl

@[simp] theorem set_state_fin_seq (s : TcpSocket) (st : TcpState) (now : Int) :
    (s.set_state st now).fin_seq = s.fin_seq := rfl

@[simp] theorem set_state_header (s : TcpSocket) (st : TcpState) (now : Int) :
    (s.set_state st now).header = s.header := rfl

@[simp] theorem set_state_srtt (s : TcpSocket) (st : TcpState) (now : Int) :
    (s.set_state st now).srtt = s.srtt := rfl

@[simp] theorem set_state_rttvar (s : TcpSocket) (st : TcpState) (now : Int) :
    (s.set_state st now).rttvar = s.rttvar := rfl

@[simp] theorem set_state_rto (s : TcpSocket) (st : TcpState) (now : Int) :
    (s.set_state st now).rto = s.rto := rfl

@[simp] theorem set_state_recv_next (s : TcpSocket) (st : TcpState) (now : Int) :
    (s.set_state st now).recv_next = s.recv_next := rfl

@[simp] theorem set_state_send_next (s : TcpSocket) (st : TcpState) (now : Int) :
    (s.set_state st now).send_next = s.send_next := rfl

@[simp] theorem set_state_send_unack (s : TcpSocket) (st : TcpState) (now : Int) :
    (s.set_state st now).send_unack = s.send_unack := rfl

@[simp] theorem set_state_timers (s : TcpSocket) (st : TcpState) (now : Int) :
    (s.set_state st now).timers = s.timers := rfl

@[simp] theorem rtt_state (s : TcpSocket) (a : Nat) (now : Int) :
    (s.on_rtt_measurement a now).state = s.state := rfl

@[simp] theorem rtt_fin_seq (s : TcpSocket) (a : Nat) (now : Int) :
    (s.on_rtt_measurement a now).fin_seq = s.fin_seq := rfl

@[simp] theorem rtt_header (s : TcpSocket) (a : Nat) (now : Int) :
    (s.on_rtt_measurement a now).header = s.header := rfl

@[simp] theorem rtt_timers (s : TcpSocket) (a : Nat) (now : Int) :
    (s.on_rtt_measurement a now).timers = s.timers := rfl

@[simp] theorem rtt_recv_next (s : TcpSocket) (a : Nat) (now : Int) :
    (s.on_rtt_measurement a now).recv_next = s.recv_next := rfl

@[simp] theorem rtt_send_next (s : TcpSocket) (a : Nat) (now : Int) :
    (s.on_rtt_measurement a now).send_next = s.send_next := rfl

@[simp] theorem rtt_send_unack (s : TcpSocket) (a : Nat) (now : Int) :
    (s.on_rtt_measurement a now).send_unack = s.send_unack := rfl

@[simp] theorem rtt_send_window (s : TcpSocket) (a : Nat) (now : Int) :
    (s.on_rtt_measurement a now).send_window = s.send_window := rfl

/-- Karn's guard inside on_rtt_measurement: an entry marked retransmitted
yields no sample at all, the whole TCB is unchanged. -/
theorem rtt_noop (s : TcpSocket) (a : Nat) (now t : Int)
    (h : mapFind s.timers a = some (true, t)) :
    s.on_rtt_measurement a now = s := by
  unfold TcpSocket.on_rtt_measurement rttTriple
  rw [h]
  rfl

@[simp] theorem ackAdvance_state (s : TcpSocket) (pkt : TcpSlice) (now : Int) :
    (s.ackAdvance pkt now).state = s.state := by
  unfold TcpSocket.ackAdvance; split <;> rfl

@[simp] theorem ackAdvance_fin_seq (s : TcpSocket) (pkt : TcpSlice) (now : Int) :
    (s.ackAdvance pkt now).fin_seq = s.fin_seq := by
  unfold TcpSocket.ackAdvance; split <;> rfl

@[simp] theorem ackAdvance_header (s : TcpSocket) (pkt : TcpSlice) (now : Int) :
    (s.ackAdvance pkt now).header = s.header := by
  unfold TcpSocket.ackAdvance; split <;> rfl

@[simp] theorem ackAdvance_recv_next (s : TcpSocket) (pkt : TcpSlice) (now : Int) :
    (s.ackAdvance pkt now).recv_next = s.recv_next := by
  unfold TcpSocket.ackAdvance; split <;> rfl

@[simp] theorem ackAdvance_send_next (s : TcpSocket) (pkt : TcpSlice) (now : Int) :
    (s.ackAdvance pkt now).send_next = s.send_next := by
  unfold TcpSocket.ackAdvance; split <;> rfl

@[simp] theorem ackAdvance_timers (s : TcpSocket) (pkt : TcpSlice) (now : Int) :
    (s.ackAdvance pkt now).timers = s.timers := by
  unfold TcpSocket.ackAdvance; split <;> rfl

@[simp] theorem payloadIngest_state (s : TcpSocket) (pkt : TcpSlice) :
    (s.payloadIngest pkt).state = s.state := by
  unfold TcpSocket.payloadIngest; split <;> rfl

@[simp] theorem payloadIngest_fin_seq (s : TcpSocket) (pkt : TcpSlice) :
    (s.payloadIngest pkt).fin_seq = s.fin_seq := by
  unfold TcpSocket.payloadIngest; split <;> rfl

@[simp] theorem payloadIngest_header (s : TcpSocket) (pkt : TcpSlice) :
    (s.payloadIngest pkt).header = s.header := by
  unfold TcpSocket.payloadIngest; split <;> rfl

@[simp] theorem payloadIngest_srtt (s : TcpSocket) (pkt : TcpSlice) :
    (s.payloadIngest pkt).srtt = s.srtt := by
  unfold TcpSocket.payloadIngest; split <;> rfl

@[simp] theorem payloadIngest_rttvar (s : TcpSocket) (pkt : TcpSlice) :
    (s.payloadIngest pkt).rttvar = s.rttvar := by
  unfold TcpSocket.payloadIngest; split <;> rfl

@[simp] theorem payloadIngest_rto (s : TcpSocket) (pkt : TcpSlice) :
    (s.payloadIngest pkt).rto = s.rto := by
  unfold TcpSocket.payloadIngest; split <;> rfl

@[simp] theorem payloadIngest_send_next (s : TcpSocket) (pkt : TcpSlice) :
    (s.payloadIngest pkt).send_next = s.send_next := by
  unfold TcpSocket.payloadIngest; split <;> rfl

@[simp] theorem payloadIngest_send_unack (s : TcpSocket) (pkt : TcpSlice) :
    (s.payloadIngest pkt).send_unack = s.send_unack := by
  unfold TcpSocket.payloadIngest; split <;> rfl

@[simp] theorem payloadIngest_timers (s : TcpSocket) (pkt : TcpSlice) :
    (s.payloadIngest pkt).timers = s.timers := by
  unfold TcpSocket.payloadIngest; split <;> rfl

@[simp] theorem payloadStep_state (s : TcpSocket) (pkt : TcpSlice) :
    (s.payloadStep pkt).1.state = s.state := by
  unfold TcpSocket.payloadStep
  split
  · rfl
  · split <;> simp

@[simp] theorem payloadStep_fin_seq (s : TcpSocket) (pkt : TcpSlice) :
    (s.payloadStep pkt).1.fin_seq = s.fin_seq := by
  unfold TcpSocket.payloadStep
  split
  · rfl
  · split <;> simp

@[simp] theorem payloadStep_header (s : TcpSocket) (pkt : TcpSlice) :
    (s.payloadStep pkt).1.header = s.header := by
  unfold TcpSocket.payloadStep
  split
  · rfl
  · split <;> simp

@[simp] theorem payloadStep_srtt (s : TcpSocket) (pkt : TcpSlice) :
    (s.payloadStep pkt).1.srtt = s.srtt := by
  unfold TcpSocket.payloadStep
  split
  · rfl
  · split <;> simp

@[simp] theorem payloadStep_rttvar (s : TcpSocket) (pkt : TcpSlice) :
    (s.payloadStep pkt).1.rttvar = s.rttvar := by
  unfold TcpSocket.payloadStep
  split
  · rfl
  · split <;> simp

@[simp] theorem payloadStep_rto (s : TcpSocket) (pkt : TcpSlice) :
    (s.payloadStep pkt).1.rto = s.rto := by
  unfold TcpSocket.payloadStep
  split
  · rfl
  · split <;> simp

@[simp] theorem payloadStep_send_next (s : TcpSocket) (pkt : TcpSlice) :
    (s.payloadStep pkt).1.send_next = s.send_next := by
  unfold TcpSocket.payloadStep
  split
  · rfl
  · split <;> simp

@[simp] theorem payloadStep_send_unack (s : TcpSocket) (pkt : TcpSlice) :
    (s.payloadStep pkt).1.send_unack = s.send_unack := by
  unfold TcpSocket.payloadStep
  split
  · rfl
  · split <;> simp

@[simp] theorem payloadStep_timers (s : TcpSocket) (pkt : TcpSlice) :
    (s.payloadStep pkt).1.timers = s.timers := by
  unfold TcpSocket.payloadStep
  split
  · rfl
  · split <;> simp

theorem payloadStep_out_fin (s : TcpSocket) (pkt : TcpSlice) :
    ∀ seg ∈ (s.payloadStep pkt).2, seg.header.fin = s.header.fin := by
  unfold TcpSocket.payloadStep
  split
  · intro seg hseg; simp at hseg
  · split
    all_goals intro seg hseg
    all_goals simp only [List.mem_singleton, List.not_mem_nil] at hseg
    all_goals first
      | exact absurd hseg (by simp)
      | (subst hseg; simp [TcpSocket.dupAck])

@[simp] theorem finTrans_fin_seq (s : TcpSocket) (now : Int) (fa : Bool) :
    (s.finTrans now fa).fin_seq = s.fin_seq := by
  unfold TcpSocket.finTrans; split <;> first | rfl | (split <;> rfl)

@[simp] theorem finTrans_header (s : TcpSocket) (now : Int) (fa : Bool) :
    (s.finTrans now fa).header = s.header := by
  unfold TcpSocket.finTrans; split <;> first | rfl | (split <;> rfl)

@[simp] theorem finTrans_srtt (s : TcpSocket) (now : Int) (fa : Bool) :
    (s.finTrans now fa).srtt = s.srtt := by
  unfold TcpSocket.finTrans; split <;> first | rfl | (split <;> rfl)

@[simp] theorem finTrans_rttvar (s : TcpSocket) (now : Int) (fa : Bool) :
    (s.finTrans now fa).rttvar = s.rttvar := by
  unfold TcpSocket.finTrans; split <;> first | rfl | (split <;> rfl)

@[simp] theorem finTrans_rto (s : TcpSocket) (now : Int) (fa : Bool) :
    (s.finTrans now fa).rto = s.rto := by
  unfold TcpSocket.finTrans; split <;> first | rfl | (split <;> rfl)

@[simp] theorem finTrans_recv_next (s : TcpSocket) (now : Int) (fa : Bool) :
    (s.finTrans now fa).recv_next = s.recv_next := by
  unfold TcpSocket.finTrans; split <;> first | rfl | (split <;> rfl)

@[simp] theorem finTrans_send_next (s : TcpSocket) (now : Int) (fa : Bool) :
    (s.finTrans now fa).send_next = s.send_next := by
  unfold TcpSocket.finTrans; split <;> first | rfl | (split <;> rfl)

@[simp] theorem finTrans_timers (s : TcpSocket) (now : Int) (fa : Bool) :
    (s.finTrans now fa).timers = s.timers := by
  unfold TcpSocket.finTrans; split <;> first | rfl | (split <;> rfl)

theorem finTrans_state_of_lastAck (s : TcpSocket) (now : Int) (fa : Bool)
    (h : s.state = TcpState.LastAck) :
    (s.finTrans now fa).state = TcpState.LastAck := by
  unfold TcpSocket.finTrans
  rw [h]
  exact h

@[simp] theorem finStep_fin_seq (s : TcpSocket) (pkt : TcpSlice) (now : Int)
    (fa : Bool) : (s.finStep pkt now fa).1.fin_seq = s.fin_seq := by
  unfold TcpSocket.finStep; split <;> simp

@[simp] theorem finStep_header (s : TcpSocket) (pkt : TcpSlice) (now : Int)
    (fa : Bool) : (s.finStep pkt now fa).1.header = s.header := by
  unfold TcpSocket.finStep; split <;> simp

@[simp] theorem finStep_srtt (s : TcpSocket) (pkt : TcpSlice) (now : Int)
    (fa : Bool) : (s.finStep pkt now fa).1.srtt = s.srtt := by
  unfold TcpSocket.finStep; split <;> simp

@[simp] theorem finStep_rttvar (s : TcpSocket) (pkt : TcpSlice) (now : Int)
    (fa : Bool) : (s.finStep pkt now fa).1.rttvar = s.rttvar := by
  unfold TcpSocket.finStep; split <;> simp

@[simp] theorem finStep_rto (s : TcpSocket) (pkt : TcpSlice) (now : Int)
    (fa : Bool) : (s.finStep pkt now fa).1.rto = s.rto := by
  unfold TcpSocket.finStep; split <;> simp

@[simp] theorem finStep_timers (s : TcpSocket) (pkt : TcpSlice) (now : Int)
    (fa : Bool) : (s.finStep pkt now fa).1.timers = s.timers := by
  unfold TcpSocket.finStep; split <;> simp

theorem finStep_state_of_lastAck (s : TcpSocket) (pkt : TcpSlice) (now : Int)
    (fa : Bool) (h : s.state = TcpState.LastAck) :
    (s.finStep pkt now fa).1.state = TcpState.LastAck := by
  unfold TcpSocket.finStep
  split
  · exact finTrans_state_of_lastAck _ _ _ h
  · exact h

theorem finStep_out_fin (s : TcpSocket) (pkt : TcpSlice) (now : Int) (fa : Bool) :
    ∀ seg ∈ (s.finStep pkt now fa).2, seg.header.fin = s.header.fin := by
  unfold TcpSocket.finStep
  split
  · intro seg hseg
    simp only [List.mem_singleton] at hseg
    subst hseg
    simp [TcpSocket.dupAck]
  · intro seg hseg; simp at hseg

@[simp] theorem finAckedTrans_fin_seq (s : TcpSocket) (pkt : TcpSlice) (now : Int) :
    (s.finAckedTrans pkt now).1.fin_seq = s.fin_seq := by
  unfold TcpSocket.finAckedTrans; split <;> simp

@[simp] theorem finAckedTrans_header (s : TcpSocket) (pkt : TcpSlice) (now : Int) :
    (s.finAckedTrans pkt now).1.header = s.header := by
  unfold TcpSocket.finAckedTrans; split <;> simp

@[simp] theorem finAckedTrans_srtt (s : TcpSocket) (pkt : TcpSlice) (now : Int) :
    (s.finAckedTrans pkt now).1.srtt = s.srtt := by
  unfold TcpSocket.finAckedTrans; split <;> simp

@[simp] theorem finAckedTrans_rttvar (s : TcpSocket) (pkt : TcpSlice) (now : Int) :
    (s.finAckedTrans pkt now).1.rttvar = s.rttvar := by
  unfold TcpSocket.finAckedTrans; split <;> simp

@[simp] theorem finAckedTrans_rto (s : TcpSocket) (pkt : TcpSlice) (now : Int) :
    (s.finAckedTrans pkt now).1.rto = s.rto := by
  unfold TcpSocket.finAckedTrans; split <;> simp

@[simp] theorem finAckedTrans_recv_next (s : TcpSocket) (pkt : TcpSlice) (now : Int) :
    (s.finAckedTrans pkt now).1.recv_next = s.recv_next := by
  unfold TcpSocket.finAckedTrans; split <;> simp

@[simp] theorem finAckedTrans_send_next (s : TcpSocket) (pkt : TcpSlice) (now : Int) :
    (s.finAckedTrans pkt now).1.send_next = s.send_next := by
  unfold TcpSocket.finAckedTrans; split <;> simp

theorem finAckedTrans_out_fin (s : TcpSocket) (pkt : TcpSlice) (now : Int) :
    ∀ seg ∈ (s.finAckedTrans pkt now).2, seg.header.fin = s.header.fin := by
  unfold TcpSocket.finAckedTrans
  split <;> intro seg hseg <;>
    simp only [List.mem_singleton, List.not_mem_nil] at hseg <;>
    subst hseg <;> simp

@[simp] theorem dupAck_fin (s : TcpSocket) : s.dupAck.header.fin = s.header.fin := rfl

/-! ### Claim theorems -/

/-- C1: the claim says a TCB that has reached CLOSED is reported for cleanup
by the next tick and that the demux loop removes every TCB whose tick returns
cleanup.  The code does neither: tick returns the cleanup flag only after
2 MSL in TIME_WAIT (c1Closed's tick returns false and changes nothing), and
the demux tick pass (tickPass, from TunDevice::read_packets) discards the
flag — even c1TimeWait, whose tick does return cleanup 70 seconds in, stays
in the table. -/
theorem C1_no_cleanup_no_removal :
    c1Closed.tick 70000000 = some (c1Closed, [], false) ∧
    c1TimeWait.tick 70000000 = some (c1TimeWait, [], true) ∧
    tickPass [(1, c1Closed), (2, c1TimeWait)] 70000000 =
      some [(1, c1Closed), (2, c1TimeWait)] := by
  refine ⟨by decide, by decide, by decide⟩

/-- C2: the claim says the acceptability test for the synchronized states is
computed in the cyclic order starting at RCV.NXT, correct across 32-bit
wrap-around.  The code computes it with plain (linear) u32 comparisons
(segmentAcceptable, tcp.rs lines 375-382): with RCV.NXT = 2^32 - 6, window
100 and an empty segment at SEQ = 2 — inside the window in cyclic order —
the code's test rejects the segment and on_packet answers with a duplicate
ACK instead of processing it, while the RFC-793 cyclic test accepts it. -/
theorem C2_linear_not_cyclic :
    segmentAcceptable 4294967290 100 2 0 = false ∧
    rfc793Acceptable 4294967290 100 2 0 = true ∧
    c2sock.on_packet c2pkt 0 = some (c2sock, [c2sock.dupAck]) := by
  refine ⟨by decide, by decide, by decide⟩

/-- C4: the claim says the SYN-ACK handler takes an RTT measurement against
the timer entry keyed by the ISS, seeding the estimator from the SYN's send
time.  The code passes the segment's acknowledgment number (ISS + 1) to
on_rtt_measurement while connect keyed the timer ISS, so the lookup fails and
no sample is taken: after the handshake from ISS 42 (timer (42, false, 0)
inserted at time 0, SYN-ACK SEQ = 1000 / ACK = 43 / WIN = 3 processed at
time 5) everything else the claim states holds — ESTABLISHED, RCV.NXT 1001,
SND.UNA 43, zero-filled 3-byte window, pure ACK with SEQ 43 / ACK 1001 —
but srtt is still 0 and rto still the initial 1000000 µs, the timer still
sits untouched at key 42, and key 43 is absent. -/
theorem C4_handshake_no_rtt_sample :
    (c4s1.on_packet c4pkt 5).map
      (fun r => (r.1.state, r.1.recv_next, r.1.send_unack)) =
      some (TcpState.Established, 1001, 43) ∧
    (c4s1.on_packet c4pkt 5).map
      (fun r => (r.1.send_window, r.1.srtt, r.1.rto)) =
      some ([0, 0, 0], 0, 1000000) ∧
    (c4s1.on_packet c4pkt 5).map
      (fun r => (mapFind r.1.timers 43, mapFind r.1.timers 42)) =
      some (none, some (false, 0)) ∧
    (c4s1.on_packet c4pkt 5).map
      (fun r => r.2.map (fun seg =>
        (seg.header.sequence_number, seg.header.acknowledgment_number,
         seg.header.ack, seg.header.syn))) =
      some [(43, 1001, true, false)] := by
  refine ⟨by decide, by decide, by decide, by decide⟩

/-- C9: the claim says write never panics in reachable ESTABLISHED states.
It does: on c9wrap (send ring of length 4, SND.UNA = 3, SND.NXT = 5, so
begin = 3 > end = 1 and capacity 2) a 1-byte write indexes payload[1] out of
bounds, and on c9zero (peer advertised a zero window at SYN-ACK) the ring
length used as a modulus is zero; both panics are modelled as none. -/
theorem C9_write_panics :
    c9wrap.write [9] 0 = none ∧ c9zero.write [1, 2, 3] 0 = none := by
  refine ⟨by decide, by decide⟩

/-- C3 counterexample: the claim says that after an ACK that strictly
advances SND.UNA, every remaining timer key is ≥ the new SND.UNA, the purge
happening as part of ACK processing itself.  Processing c3pkt (ACK = 25)
on c3sock (SND.UNA = 10, timers at keys 10 and 20) advances SND.UNA to 25
but both timers survive: key 10 < 25 is still in the map right after
on_packet returns. -/
theorem C3_stale_timer_survives_ack :
    (c3sock.on_packet c3pkt 0).map
      (fun r => (r.1.send_unack, mapFind r.1.timers 10, mapFind r.1.timers 20)) =
    some (25, some (false, 0), some (false, 0)) := by
  decide

/-- C5 counterexample: the claim says write in ESTABLISHED always inserts
exactly one timer keyed by the current SND.NXT and transmits the copied
bytes.  A write whose computed capacity is 0 (here: an empty payload on
c5sock) returns 0, inserts no timer and transmits nothing — the TCB is
returned unchanged, and c5sock has no timer at its SND.NXT at all. -/
theorem C5_zero_capacity_no_timer :
    c5sock.write [] 0 = some (c5sock, [], WriteOut.wrote 0) ∧
    mapFind c5sock.timers c5sock.send_next = none := by
  refine ⟨by decide, by decide⟩

/-- C6 counterexample: the claim says a FIN arriving in FIN_WAIT_1 whose ACK
does not cover our own FIN drives FIN_WAIT_1 → CLOSING.  Processing the
bare in-order FIN c6cpkt (ACK = 50, not acking fin_seq = 99) on c6cs leaves
the state at FIN_WAIT_1 — CLOSING is never entered. -/
theorem C6_finwait1_stays :
    (c6cs.on_packet c6cpkt 0).map (fun r => (r.1.state, r.1.recv_next)) =
      some (TcpState.FinWait1, 701) ∧
    TcpState.FinWait1 ≠ TcpState.Closing := by
  refine ⟨by decide, by decide⟩

/-- C7 counterexample: the claim says that in CLOSED an inbound non-RST
segment carrying an ACK elicits a RST reply with the ACK flag clear.  The
code never clears the flag — the reply inherits it from the header
template: on c7sock (template ACK flag set, as after an established
connection was reset) the reply to c7pkt carries ack = true. -/
theorem C7_ack_flag_not_cleared :
    (c7sock.on_packet c7pkt 0).map (fun r =>
      r.2.map (fun seg =>
        (seg.header.sequence_number, seg.header.rst, seg.header.ack))) =
    some [(777, true, true)] := by
  decide

/-- C3 (amended): the purge of acknowledged timers does not happen during ACK
processing itself (C3_stale_timer_survives_ack); it happens at the start of
the next tick, whose first action retains only timer entries with key ≥
SND.UNA — so after any tick every remaining timer key is ≥ SND.UNA (which
tick leaves unchanged). -/
theorem C3_tick_purges (s : TcpSocket) (now : Int)
    (r : TcpSocket × List Segment × Bool) (h : s.tick now = some r) :
    r.1.send_unack = s.send_unack ∧ ∀ kv ∈ r.1.timers, s.send_unack ≤ kv.1 := by
  have hmem : ∀ kv : Nat × Bool × Int,
      kv ∈ mapFilter s.timers (fun k => decide (s.send_unack ≤ k)) →
      s.send_unack ≤ kv.1 := fun kv hkv =>
    of_decide_eq_true (mem_of_mem_mapFilter hkv)
  have hins : ∀ (seq : Nat) (fl : Bool) (inst : Int),
      mapMinKey (mapFilter s.timers (fun k => decide (s.send_unack ≤ k))) =
        some (seq, fl, inst) →
      ∀ kv ∈ mapInsert
          (mapFilter s.timers (fun k => decide (s.send_unack ≤ k)))
          seq (true, now),
        s.send_unack ≤ kv.1 := by
    intro seq fl inst hm kv hkv
    rcases mem_of_mem_mapInsert hkv with h1 | h1
    · rw [h1]
      exact hmem (seq, fl, inst) (mapMinKey_mem hm)
    · exact hmem _ h1
  unfold TcpSocket.tick at h
  dsimp only at h
  split at h
  next seq fl inst heq =>
    split at h
    · split at h
      · exact (Option.some.inj h) ▸ ⟨rfl, hins seq fl inst heq⟩
      · split at h
        · exact (Option.some.inj h) ▸ ⟨rfl, hins seq fl inst heq⟩
        · split at h
          · exact absurd h (by simp)
          · exact (Option.some.inj h) ▸ ⟨rfl, hins seq fl inst heq⟩
    · exact (Option.some.inj h) ▸ ⟨rfl, hmem⟩
  next heq =>
    split at h
    · split at h
      · exact (Option.some.inj h) ▸ ⟨rfl, hmem⟩
      · exact (Option.some.inj h) ▸ ⟨rfl, hmem⟩
    · split at h
      next t heq2 =>
        split at h
        · exact (Option.some.inj h) ▸ ⟨rfl, hmem⟩
        · exact (Option.some.inj h) ▸ ⟨rfl, hmem⟩
      next heq2 =>
        exact (Option.some.inj h) ▸ ⟨rfl, hmem⟩

/-- Witness for C3_tick_purges: ticking c3wit at time 0 purges the stale
key 10, keeps key 30 ≥ SND.UNA = 25 and leaves SND.UNA unchanged. -/
theorem C3_tick_purges_witness :
    c3wit.tick 0 = some (c3wres, [], false) ∧
    c3wres.send_unack = c3wit.send_unack ∧ c3wit.send_unack ≤ 30 :=
  ⟨by decide,
   (C3_tick_purges c3wit 0 (c3wres, [], false) (by decide)).1,
   (C3_tick_purges c3wit 0 (c3wres, [], false) (by decide)).2 (30, false, 0)
     (by decide)⟩

/-- C5 (amended): write in ESTABLISHED computes the capacity as
min(W − (end − begin), len(payload)) for begin ≤ end and begin − end
otherwise (sendCapacity, exactly the claim's formula); when the capacity is
positive it copies that many bytes into the ring at end (wrapping), inserts
exactly one timer keyed by the current SND.NXT, transmits them with PSH set
and advances SND.NXT by the count, returning it — but when the capacity is 0
(an empty payload) it returns 0 without inserting a timer or transmitting
anything; in every other state it signals not-connected and leaves the TCB
unchanged.  (The positive case assumes the ring is nonempty and the payload
at least as long as the capacity; otherwise write panics — claim C9.) -/
theorem C5_write_behavior (s : TcpSocket) (payload : List Nat) (now : Int) :
    (s.state ≠ TcpState.Established →
      s.write payload now = some (s, [], WriteOut.notConnected)) ∧
    (s.state = TcpState.Established → 0 < s.send_window.length →
      sendCapacity s.send_window.length s.send_unack s.send_next
          payload.length ≤ payload.length →
      (0 < sendCapacity s.send_window.length s.send_unack s.send_next
          payload.length →
        s.write payload now =
          some
            ({ s with
                send_window := ringWrite s.send_window
                  (s.send_next % s.send_window.length) payload
                  (sendCapacity s.send_window.length s.send_unack s.send_next
                    payload.length)
                timers := mapInsert s.timers s.send_next (false, now)
                header := { s.header with sequence_number := s.send_next }
                send_next := wadd s.send_next
                  (sendCapacity s.send_window.length s.send_unack s.send_next
                    payload.length) },
             [⟨{ s.header with sequence_number := s.send_next, psh := true },
               payload.take (sendCapacity s.send_window.length s.send_unack
                 s.send_next payload.length)⟩],
             WriteOut.wrote
               (sendCapacity s.send_window.length s.send_unack s.send_next
                 payload.length))) ∧
      (sendCapacity s.send_window.length s.send_unack s.send_next
          payload.length = 0 →
        s.write payload now = some (s, [], WriteOut.wrote 0))) := by
  constructor
  · intro hne
    unfold TcpSocket.write
    rw [if_pos hne]
  · intro hst hlen hcap
    constructor
    · intro hpos
      unfold TcpSocket.write
      rw [if_neg (by simp [hst]), if_neg (by omega), if_neg (by omega),
          if_pos hpos]
    · intro hz
      unfold TcpSocket.write
      rw [if_neg (by simp [hst]), if_neg (by omega), if_neg (by omega),
          if_neg (by omega)]

/-- Witness for C5_write_behavior: on c5sock (ring length 4, SND.UNA =
SND.NXT = 8) a 2-byte write copies both bytes at ring index 0, inserts the
timer at key 8, transmits them with PSH and advances SND.NXT to 10; and in
LISTEN (a fresh socket) write signals not-connected. -/
theorem C5_write_behavior_witness :
    c5sock.state = TcpState.Established ∧ 0 < c5sock.send_window.length ∧
    sendCapacity 4 8 8 2 = 2 ∧
    c5sock.write [10, 11] 3 =
      some
        ({ c5sock with
            send_window := [10, 11, 0, 0]
            timers := [(8, false, 3)]
            header := { c5sock.header with sequence_number := 8 }
            send_next := 10 },
         [⟨{ c5sock.header with sequence_number := 8, psh := true },
           [10, 11]⟩], WriteOut.wrote 2) ∧
    (TcpSocket.new 1 2 3).write [10, 11] 3 =
      some (TcpSocket.new 1 2 3, [], WriteOut.notConnected) := by
  refine ⟨rfl, by decide, by decide, ?_, ?_⟩
  · have h := ((C5_write_behavior c5sock [10, 11] 3).2 rfl (by decide)
      (by decide)).1 (by decide)
    rw [h]
    decide
  · exact (C5_write_behavior (TcpSocket.new 1 2 3) [10, 11] 3).1 (by decide)

/-- C7 (amended): in CLOSED an inbound RST is dropped silently; every other
segment elicits exactly one RST built from the header template and leaves
the TCB unchanged: without ACK the reply carries SEQ = 0,
ACK = segment.SEQ + payload length and the ACK flag set; with ACK the reply
carries SEQ = segment.ACK and the ACK flag exactly as it stands in the
template (set if the template's ACK flag is set) — it is not cleared. -/
theorem C7_closed_replies (s : TcpSocket) (pkt : TcpSlice) (now : Int)
    (hst : s.state = TcpState.Closed) :
    (pkt.rst = true → s.on_packet pkt now = some (s, [])) ∧
    (pkt.rst = false → pkt.ack = false →
      s.on_packet pkt now =
        some (s,
          [⟨{ s.header with
               rst := true
               sequence_number := 0
               acknowledgment_number :=
                 wadd pkt.sequence_number pkt.payload.length
               ack := true }, []⟩])) ∧
    (pkt.rst = false → pkt.ack = true →
      s.on_packet pkt now =
        some (s,
          [⟨{ s.header with
               rst := true
               sequence_number := pkt.acknowledgment_number }, []⟩])) := by
  have hcs : s.on_packet pkt now = some (s.closedStep pkt) := by
    unfold TcpSocket.on_packet
    rw [hst]
  refine ⟨fun hr => ?_, fun hr ha => ?_, fun hr ha => ?_⟩
  · rw [hcs]
    unfold TcpSocket.closedStep
    rw [if_pos hr]
  · rw [hcs]
    unfold TcpSocket.closedStep
    rw [if_neg (by simp [hr])]
    dsimp only
    rw [if_pos ha]
  · rw [hcs]
    unfold TcpSocket.closedStep
    rw [if_neg (by simp [hr])]
    dsimp only
    rw [if_neg (by simp [ha])]

/-- Witness for C7_closed_replies: the CLOSED c7sock answers the ACK-less
two-byte segment c7pktNoAck with one RST carrying SEQ = 0, ACK = 602 and the
ACK flag set, and drops a pure RST silently. -/
theorem C7_closed_replies_witness :
    c7sock.state = TcpState.Closed ∧ c7pktNoAck.rst = false ∧
    c7pktNoAck.ack = false ∧
    c7sock.on_packet c7pktNoAck 0 =
      some (c7sock,
        [⟨{ c7sock.header with
             rst := true
             sequence_number := 0
             acknowledgment_number :=
               wadd c7pktNoAck.sequence_number c7pktNoAck.payload.length
             ack := true }, []⟩]) :=
  ⟨rfl, rfl, rfl, (C7_closed_replies c7sock c7pktNoAck 0 rfl).2.1 rfl rfl⟩

theorem finAckedTrans_est (s : TcpSocket) (pkt : TcpSlice) (now : Int)
    (h : s.state = TcpState.Established) :
    s.finAckedTrans pkt now = (s, []) := by
  unfold TcpSocket.finAckedTrans
  rw [h]

theorem finAckedTrans_fw1 (s : TcpSocket) (pkt : TcpSlice) (now : Int)
    (h : s.state = TcpState.FinWait1) :
    s.finAckedTrans pkt now = (s.set_state TcpState.FinWait2 now, []) := by
  unfold TcpSocket.finAckedTrans
  rw [h]

theorem finAckedTrans_fw2 (s : TcpSocket) (pkt : TcpSlice) (now : Int)
    (h : s.state = TcpState.FinWait2) :
    s.finAckedTrans pkt now = (s, []) := by
  unfold TcpSocket.finAckedTrans
  rw [h]

theorem finAckedTrans_tw (s : TcpSocket) (pkt : TcpSlice) (now : Int)
    (h : s.state = TcpState.TimeWait) :
    s.finAckedTrans pkt now =
      (s.set_state TcpState.TimeWait now, [ackOfFinOf s pkt]) := by
  unfold TcpSocket.finAckedTrans
  rw [h]
  rfl

theorem finTrans_est (s : TcpSocket) (now : Int) (fa : Bool)
    (h : s.state = TcpState.Established) :
    s.finTrans now fa = s.set_state TcpState.CloseWait now := by
  unfold TcpSocket.finTrans
  rw [h]

theorem finTrans_fw1 (s : TcpSocket) (now : Int) (fa : Bool)
    (h : s.state = TcpState.FinWait1) :
    s.finTrans now fa =
      if fa = true then s.set_state TcpState.TimeWait now else s := by
  unfold TcpSocket.finTrans
  rw [h]

theorem finTrans_fw2 (s : TcpSocket) (now : Int) (fa : Bool)
    (h : s.state = TcpState.FinWait2) :
    s.finTrans now fa = s.set_state TcpState.TimeWait now := by
  unfold TcpSocket.finTrans
  rw [h]

theorem finTrans_tw (s : TcpSocket) (now : Int) (fa : Bool)
    (h : s.state = TcpState.TimeWait) :
    s.finTrans now fa = s.set_state TcpState.TimeWait now := by
  unfold TcpSocket.finTrans
  rw [h]

theorem finStep_fires (s : TcpSocket) (pkt : TcpSlice) (now : Int) (fa : Bool)
    (hf : pkt.fin = true) (hq : pkt.sequence_number = s.recv_next) :
    s.finStep pkt now fa =
      (({ s with recv_next := wadd s.recv_next 1 }).finTrans now fa,
       [({ s with recv_next := wadd s.recv_next 1 }).dupAck]) := by
  unfold TcpSocket.finStep
  rw [if_pos ⟨hf, hq⟩]

theorem payloadStep_empty (s : TcpSocket) (pkt : TcpSlice)
    (hp : pkt.payload = []) : s.payloadStep pkt = (s, []) := by
  unfold TcpSocket.payloadStep
  rw [if_pos hp]

@[simp] theorem ackedFinBranch_header (s : TcpSocket) (pkt : TcpSlice)
    (now : Int) : (s.ackedFinBranch pkt now).1.header = s.header := by
  unfold TcpSocket.ackedFinBranch; split <;> simp

@[simp] theorem ackedFinBranch_recv_next (s : TcpSocket) (pkt : TcpSlice)
    (now : Int) : (s.ackedFinBranch pkt now).1.recv_next = s.recv_next := by
  unfold TcpSocket.ackedFinBranch; split <;> simp

@[simp] theorem ackedFinBranch_send_next (s : TcpSocket) (pkt : TcpSlice)
    (now : Int) : (s.ackedFinBranch pkt now).1.send_next = s.send_next := by
  unfold TcpSocket.ackedFinBranch; split <;> simp

@[simp] theorem ackedFinBranch_fin_seq (s : TcpSocket) (pkt : TcpSlice)
    (now : Int) : (s.ackedFinBranch pkt now).1.fin_seq = s.fin_seq := by
  unfold TcpSocket.ackedFinBranch; split <;> simp

@[simp] theorem ackedFinBranch_srtt (s : TcpSocket) (pkt : TcpSlice)
    (now : Int) : (s.ackedFinBranch pkt now).1.srtt = s.srtt := by
  unfold TcpSocket.ackedFinBranch; split <;> simp

@[simp] theorem ackedFinBranch_rttvar (s : TcpSocket) (pkt : TcpSlice)
    (now : Int) : (s.ackedFinBranch pkt now).1.rttvar = s.rttvar := by
  unfold TcpSocket.ackedFinBranch; split <;> simp

@[simp] theorem ackedFinBranch_rto (s : TcpSocket) (pkt : TcpSlice)
    (now : Int) : (s.ackedFinBranch pkt now).1.rto = s.rto := by
  unfold TcpSocket.ackedFinBranch; split <;> simp

theorem ackedFinBranch_out_fin (s : TcpSocket) (pkt : TcpSlice) (now : Int) :
    ∀ seg ∈ (s.ackedFinBranch pkt now).2, seg.header.fin = s.header.fin := by
  unfold TcpSocket.ackedFinBranch
  split
  · exact finAckedTrans_out_fin s pkt now
  · intro seg hseg; simp at hseg

theorem ackedFinBranch_fa_false (s : TcpSocket) (pkt : TcpSlice) (now : Int)
    (h : s.finAcked = false) : s.ackedFinBranch pkt now = (s, []) := by
  unfold TcpSocket.ackedFinBranch
  rw [h]
  simp

theorem ackedFinBranch_fa_true (s : TcpSocket) (pkt : TcpSlice) (now : Int)
    (h : s.finAcked = true) : s.ackedFinBranch pkt now = s.finAckedTrans pkt now := by
  unfold TcpSocket.ackedFinBranch
  rw [h]
  simp

/-- The main (acceptable, non-RST, non-SYN, ACK-bearing, non-LAST-ACK-return)
path of dataStep, written as the explicit composition of its four steps. -/
theorem dataStep_main (s : TcpSocket) (pkt : TcpSlice) (now : Int)
    (hacc : segmentAcceptable s.recv_next s.header.window_size
      pkt.sequence_number pkt.payload.length = true)
    (hr : pkt.rst = false) (hy : pkt.syn = false) (ha : pkt.ack = true)
    (hnl : ¬((s.ackAdvance pkt now).finAcked = true ∧
             (s.ackAdvance pkt now).state = TcpState.LastAck)) :
    s.dataStep pkt now =
      some
        (((((s.ackAdvance pkt now).ackedFinBranch pkt
            now).1.payloadStep pkt).1.finStep pkt now
            (s.ackAdvance pkt now).finAcked).1,
         ((s.ackAdvance pkt now).ackedFinBranch pkt now).2 ++
         ((((s.ackAdvance pkt now).ackedFinBranch pkt
            now).1.payloadStep pkt).2) ++
         (((((s.ackAdvance pkt now).ackedFinBranch pkt
            now).1.payloadStep pkt).1.finStep pkt now
            (s.ackAdvance pkt now).finAcked).2)) := by
  unfold TcpSocket.dataStep
  rw [if_neg (by simp [hacc]), if_neg (by simp [hr]), if_neg (by simp [hy]),
      if_neg (by simp [ha]), if_neg hnl]

/-- The bare-FIN path of dataStep: an acceptable ACK-bearing segment with
FIN, empty payload and SEQ = RCV.NXT (outside the LAST-ACK early return)
runs the acked-FIN branch, skips the payload step, advances RCV.NXT by one,
emits the acked-FIN branch's output followed by exactly one ACK, and drives
finTrans. -/
theorem dataStep_fin (s : TcpSocket) (pkt : TcpSlice) (now : Int)
    (hacc : segmentAcceptable s.recv_next s.header.window_size
      pkt.sequence_number pkt.payload.length = true)
    (hr : pkt.rst = false) (hy : pkt.syn = false) (ha : pkt.ack = true)
    (hp : pkt.payload = []) (hq : pkt.sequence_number = s.recv_next)
    (hf : pkt.fin = true)
    (hnl : ¬((s.ackAdvance pkt now).finAcked = true ∧
             (s.ackAdvance pkt now).state = TcpState.LastAck)) :
    s.dataStep pkt now =
      some
        (({ ((s.ackAdvance pkt now).ackedFinBranch pkt now).1 with
            recv_next := wadd s.recv_next 1 }).finTrans now
           (s.ackAdvance pkt now).finAcked,
         ((s.ackAdvance pkt now).ackedFinBranch pkt now).2 ++ [finAckOf s]) := by
  rw [dataStep_main s pkt now hacc hr hy ha hnl,
      payloadStep_empty ((s.ackAdvance pkt now).ackedFinBranch pkt now).1 pkt hp]
  dsimp only
  rw [finStep_fires ((s.ackAdvance pkt now).ackedFinBranch pkt now).1 pkt now
      (s.ackAdvance pkt now).finAcked hf
      (by rw [ackedFinBranch_recv_next, ackAdvance_recv_next]; exact hq)]
  dsimp only
  simp [TcpSocket.dupAck, finAckOf]

/-- C6 (amended): an acceptable bare FIN (ACK set, no payload, no RST/SYN)
with SEQ = RCV.NXT advances RCV.NXT by exactly one; the transitions are
ESTABLISHED → CLOSE_WAIT, FIN_WAIT_1 → TIME_WAIT when our FIN is acked
(counting an ack carried by this same segment) but FIN_WAIT_1 stays
FIN_WAIT_1 otherwise (CLOSING is never entered), FIN_WAIT_2 → TIME_WAIT, and
TIME_WAIT → TIME_WAIT with its deadline reset; exactly one ACK is emitted by
the FIN handling — except that in TIME_WAIT, when the segment also acks our
FIN, the acked-FIN processing emits one additional ACK before it. -/
theorem C6_fin_transitions (s : TcpSocket) (pkt : TcpSlice) (now : Int)
    (hf : pkt.fin = true) (hr : pkt.rst = false) (hy : pkt.syn = false)
    (ha : pkt.ack = true) (hp : pkt.payload = [])
    (hq : pkt.sequence_number = s.recv_next)
    (hacc : segmentAcceptable s.recv_next s.header.window_size
      pkt.sequence_number pkt.payload.length = true)
    (hst : s.state = TcpState.Established ∨ s.state = TcpState.FinWait1 ∨
           s.state = TcpState.FinWait2 ∨ s.state = TcpState.TimeWait) :
    (s.on_packet pkt now).isSome = true ∧
    ∀ r, s.on_packet pkt now = some r →
      r.1.recv_next = wadd s.recv_next 1 ∧
      (s.state = TcpState.Established →
        r.1.state = TcpState.CloseWait ∧ r.2 = [finAckOf s]) ∧
      (s.state = TcpState.FinWait1 → (s.ackAdvance pkt now).finAcked = true →
        r.1.state = TcpState.TimeWait ∧ r.1.time_wait_instant = some now ∧
        r.2 = [finAckOf s]) ∧
      (s.state = TcpState.FinWait1 → (s.ackAdvance pkt now).finAcked = false →
        r.1.state = TcpState.FinWait1 ∧ r.2 = [finAckOf s]) ∧
      (s.state = TcpState.FinWait2 →
        r.1.state = TcpState.TimeWait ∧ r.1.time_wait_instant = some now ∧
        r.2 = [finAckOf s]) ∧
      (s.state = TcpState.TimeWait →
        r.1.state = TcpState.TimeWait ∧ r.1.time_wait_instant = some now ∧
        r.2 = (if (s.ackAdvance pkt now).finAcked = true
               then [ackOfFinOf s pkt] else []) ++ [finAckOf s]) := by
  have hnl : ¬((s.ackAdvance pkt now).finAcked = true ∧
      (s.ackAdvance pkt now).state = TcpState.LastAck) := by
    rcases hst with hs | hs | hs | hs <;> simp [hs]
  have hop : s.on_packet pkt now = s.dataStep pkt now := by
    unfold TcpSocket.on_packet
    rcases hst with hs | hs | hs | hs <;> rw [hs]
  have hfin := dataStep_fin s pkt now hacc hr hy ha hp hq hf hnl
  constructor
  · rw [hop, hfin]
    rfl
  intro r hr0
  rw [hop, hfin] at hr0
  replace hr0 := Option.some.inj hr0
  subst hr0
  refine ⟨by rw [finTrans_recv_next], ?_, ?_, ?_, ?_, ?_⟩
  · -- ESTABLISHED
    intro hs
    have hst1 : (s.ackAdvance pkt now).state = TcpState.Established := by
      rw [ackAdvance_state, hs]
    cases hfa : (s.ackAdvance pkt now).finAcked with
    | false =>
        rw [ackedFinBranch_fa_false _ _ _ hfa]
        refine ⟨?_, by simp⟩
        rw [finTrans_est _ now _ (by simp [hs])]
        rfl
    | true =>
        rw [ackedFinBranch_fa_true _ _ _ hfa,
            finAckedTrans_est _ pkt now hst1]
        refine ⟨?_, by simp⟩
        rw [finTrans_est _ now _ (by simp [hs])]
        rfl
  · -- FIN_WAIT_1, fin acked
    intro hs hfa
    have hst1 : (s.ackAdvance pkt now).state = TcpState.FinWait1 := by
      rw [ackAdvance_state, hs]
    rw [ackedFinBranch_fa_true _ _ _ hfa,
        finAckedTrans_fw1 _ pkt now hst1]
    refine ⟨?_, ?_, by simp⟩
    · rw [finTrans_fw2 _ now _ (by simp)]
      rfl
    · rw [finTrans_fw2 _ now _ (by simp)]
      simp [TcpSocket.set_state]
  · -- FIN_WAIT_1, fin not acked
    intro hs hfa
    have hst1 : (s.ackAdvance pkt now).state = TcpState.FinWait1 := by
      rw [ackAdvance_state, hs]
    rw [ackedFinBranch_fa_false _ _ _ hfa]
    refine ⟨?_, by simp⟩
    rw [finTrans_fw1 _ now _ (by simp [hs]), hfa]
    simp [hs]
  · -- FIN_WAIT_2
    intro hs
    have hst1 : (s.ackAdvance pkt now).state = TcpState.FinWait2 := by
      rw [ackAdvance_state, hs]
    cases hfa : (s.ackAdvance pkt now).finAcked with
    | false =>
        rw [ackedFinBranch_fa_false _ _ _ hfa]
        refine ⟨?_, ?_, by simp⟩
        · rw [finTrans_fw2 _ now _ (by simp [hs])]
          rfl
        · rw [finTrans_fw2 _ now _ (by simp [hs])]
          simp [TcpSocket.set_state]
    | true =>
        rw [ackedFinBranch_fa_true _ _ _ hfa,
            finAckedTrans_fw2 _ pkt now hst1]
        refine ⟨?_, ?_, by simp⟩
        · rw [finTrans_fw2 _ now _ (by simp [hs])]
          rfl
        · rw [finTrans_fw2 _ now _ (by simp [hs])]
          simp [TcpSocket.set_state]
  · -- TIME_WAIT
    intro hs
    have hst1 : (s.ackAdvance pkt now).state = TcpState.TimeWait := by
      rw [ackAdvance_state, hs]
    cases hfa : (s.ackAdvance pkt now).finAcked with
    | false =>
        rw [ackedFinBranch_fa_false _ _ _ hfa]
        refine ⟨?_, ?_, by simp⟩
        · rw [finTrans_tw _ now _ (by simp [hs])]
          rfl
        · rw [finTrans_tw _ now _ (by simp [hs])]
          simp [TcpSocket.set_state]
    | true =>
        rw [ackedFinBranch_fa_true _ _ _ hfa,
            finAckedTrans_tw _ pkt now hst1]
        refine ⟨?_, ?_, ?_⟩
        · rw [finTrans_tw _ now _ (by simp)]
          rfl
        · rw [finTrans_tw _ now _ (by simp)]
          simp [TcpSocket.set_state]
        · simp [ackOfFinOf]

/-- Witness for C6_fin_transitions: the bare FIN c6wpkt processed on the
ESTABLISHED c6ws advances RCV.NXT from 1006 to 1007, moves the TCB to
CLOSE_WAIT and transmits exactly one ACK. -/
theorem C6_fin_transitions_witness :
    c6ws.state = TcpState.Established ∧ c6wpkt.fin = true ∧
    c6wpkt.payload = [] ∧ c6wpkt.sequence_number = c6ws.recv_next ∧
    segmentAcceptable c6ws.recv_next c6ws.header.window_size
      c6wpkt.sequence_number c6wpkt.payload.length = true ∧
    c6wres.1.recv_next = wadd c6ws.recv_next 1 ∧
    c6wres.1.state = TcpState.CloseWait ∧ c6wres.2 = [finAckOf c6ws] := by
  have h := (C6_fin_transitions c6ws c6wpkt 7 rfl rfl rfl rfl rfl rfl
    (by decide) (Or.inl rfl)).2 c6wres rfl
  exact ⟨rfl, rfl, rfl, rfl, by decide, h.1, (h.2.1 rfl).1, (h.2.1 rfl).2⟩

/-- C8 (confirmed, Karn's algorithm): whenever the timer entry at the
segment's acknowledgment number is marked retransmitted, on_rtt_measurement
at that key is a complete no-op (the TCB is unchanged), and processing the
segment through on_packet — whatever path it takes — leaves srtt, rttvar and
rto untouched: no RTT sample is ever taken from a retransmitted entry. -/
theorem C8_karn (s : TcpSocket) (pkt : TcpSlice) (now t : Int)
    (h : mapFind s.timers pkt.acknowledgment_number = some (true, t)) :
    s.on_rtt_measurement pkt.acknowledgment_number now = s ∧
    ∀ r, s.on_packet pkt now = some r →
      r.1.srtt = s.srtt ∧ r.1.rttvar = s.rttvar ∧ r.1.rto = s.rto := by
  have hadv : (s.ackAdvance pkt now).srtt = s.srtt ∧
      (s.ackAdvance pkt now).rttvar = s.rttvar ∧
      (s.ackAdvance pkt now).rto = s.rto := by
    unfold TcpSocket.ackAdvance
    rw [rtt_noop s _ now t h]
    split <;> exact ⟨rfl, rfl, rfl⟩
  refine ⟨rtt_noop s _ now t h, ?_⟩
  intro r hr0
  unfold TcpSocket.on_packet at hr0
  split at hr0
  · exact absurd hr0 (by simp)
  · exact absurd hr0 (by simp)
  · replace hr0 := Option.some.inj hr0
    subst hr0
    unfold TcpSocket.synSentStep
    split
    · exact ⟨rfl, rfl, rfl⟩
    · split
      · exact ⟨rfl, rfl, rfl⟩
      · split
        · exact ⟨rfl, rfl, rfl⟩
        · split
          · refine ⟨?_, ?_, ?_⟩ <;>
              simp [TcpSocket.on_rtt_measurement, rttTriple, h]
          · exact ⟨rfl, rfl, rfl⟩
  · replace hr0 := Option.some.inj hr0
    subst hr0
    unfold TcpSocket.closedStep
    split
    · exact ⟨rfl, rfl, rfl⟩
    · exact ⟨rfl, rfl, rfl⟩
  · unfold TcpSocket.dataStep at hr0
    split at hr0
    · split at hr0 <;>
        (replace hr0 := Option.some.inj hr0; subst hr0; exact ⟨rfl, rfl, rfl⟩)
    · split at hr0
      · split at hr0
        · replace hr0 := Option.some.inj hr0
          subst hr0
          exact ⟨rfl, rfl, rfl⟩
        · replace hr0 := Option.some.inj hr0
          subst hr0
          exact ⟨rfl, rfl, rfl⟩
      · split at hr0
        · exact absurd hr0 (by simp)
        · split at hr0
          · replace hr0 := Option.some.inj hr0
            subst hr0
            exact ⟨rfl, rfl, rfl⟩
          · dsimp only at hr0
            split at hr0
            · replace hr0 := Option.some.inj hr0
              subst hr0
              exact ⟨hadv.1, hadv.2.1, hadv.2.2⟩
            · replace hr0 := Option.some.inj hr0
              subst hr0
              refine ⟨?_, ?_, ?_⟩ <;>
                simp [hadv.1, hadv.2.1, hadv.2.2]

/-- Witness for C8_karn: on c8sock, whose only timer (77, retransmitted) is
matched exactly by c8pkt's ACK, the measurement path is a no-op and
on_packet leaves srtt = 2500000, rttvar = 250000, rto = 3500000 exactly as
they were. -/
theorem C8_karn_witness :
    mapFind c8sock.timers c8pkt.acknowledgment_number = some (true, 0) ∧
    c8sock.on_rtt_measurement c8pkt.acknowledgment_number 9 = c8sock ∧
    c8res.1.srtt = c8sock.srtt ∧ c8res.1.rttvar = c8sock.rttvar ∧
    c8res.1.rto = c8sock.rto := by
  have h := C8_karn c8sock c8pkt 9 0 rfl
  have h2 := h.2 c8res rfl
  exact ⟨rfl, h.1, h2.1, h2.2.1, h2.2.2⟩

theorem write_notConnected (s : TcpSocket) (payload : List Nat) (now : Int)
    (hne : s.state ≠ TcpState.Established) :
    s.write payload now = some (s, [], WriteOut.notConnected) := by
  unfold TcpSocket.write
  rw [if_pos hne]

theorem read_preserve (s : TcpSocket) (bufLen : Nat) :
    (s.read bufLen).1.state = s.state ∧ (s.read bufLen).1.fin_seq = s.fin_seq ∧
    (s.read bufLen).1.header = s.header := by
  unfold TcpSocket.read
  split <;> exact ⟨rfl, rfl, rfl⟩

theorem close_quiet (s : TcpSocket) (now : Int)
    (hst : s.state = TcpState.LastAck ∨ s.state = TcpState.Closed) :
    s.close now = s := by
  unfold TcpSocket.close
  rcases hst with hs | hs <;> rw [hs]

/-- In LAST_ACK with no FIN queued, dataStep keeps the TCB in
LAST_ACK/CLOSED, stamps no fin_seq and emits no FIN. -/
theorem dataStep_quiet (s : TcpSocket) (pkt : TcpSlice) (now : Int)
    (hst : s.state = TcpState.LastAck) (hfs : s.fin_seq = none)
    (hhf : s.header.fin = false) :
    ∀ r, s.dataStep pkt now = some r →
      (r.1.state = TcpState.LastAck ∨ r.1.state = TcpState.Closed) ∧
      r.1.fin_seq = none ∧ r.1.header.fin = false ∧
      ∀ seg ∈ r.2, seg.header.fin = false := by
  intro r hr0
  unfold TcpSocket.dataStep at hr0
  split at hr0
  · split at hr0 <;> (replace hr0 := Option.some.inj hr0; subst hr0)
    · refine ⟨Or.inl hst, hfs, hhf, ?_⟩
      intro seg hseg
      simp only [List.mem_singleton] at hseg
      subst hseg
      simp [hhf]
    · exact ⟨Or.inl hst, hfs, hhf, by intro seg hseg; simp at hseg⟩
  · split at hr0
    · split at hr0 <;> (replace hr0 := Option.some.inj hr0; subst hr0)
      · exact ⟨Or.inr rfl, hfs, hhf, by intro seg hseg; simp at hseg⟩
      · refine ⟨Or.inl hst, hfs, hhf, ?_⟩
        intro seg hseg
        simp only [List.mem_singleton] at hseg
        subst hseg
        simp [hhf]
    · split at hr0
      · exact absurd hr0 (by simp)
      · split at hr0
        · replace hr0 := Option.some.inj hr0
          subst hr0
          exact ⟨Or.inl hst, hfs, hhf, by intro seg hseg; simp at hseg⟩
        · dsimp only at hr0
          have hfa : (s.ackAdvance pkt now).finAcked = false := by
            unfold TcpSocket.finAcked
            rw [ackAdvance_fin_seq, hfs]
          rw [hfa] at hr0
          rw [if_neg (by simp)] at hr0
          rw [ackedFinBranch_fa_false _ _ _ hfa] at hr0
          dsimp only at hr0
          replace hr0 := Option.some.inj hr0
          subst hr0
          refine ⟨?_, ?_, ?_, ?_⟩
          · exact Or.inl
              (finStep_state_of_lastAck _ pkt now false (by simp [hst]))
          · simp [hfs]
          · simp [hhf]
          · intro seg hseg
            simp only [List.nil_append, List.mem_append] at hseg
            rcases hseg with h1 | h1
            · exact (payloadStep_out_fin _ pkt seg h1).trans
                (by rw [ackAdvance_header, hhf])
            · exact (finStep_out_fin _ pkt now false seg h1).trans
                (by rw [payloadStep_header, ackAdvance_header, hhf])

/-- In CLOSED, closedStep leaves the TCB untouched and emits no FIN. -/
theorem closedStep_quiet (s : TcpSocket) (pkt : TcpSlice)
    (hhf : s.header.fin = false) :
    (s.closedStep pkt).1 = s ∧
    ∀ seg ∈ (s.closedStep pkt).2, seg.header.fin = false := by
  unfold TcpSocket.closedStep
  split
  · exact ⟨rfl, by intro seg hseg; simp at hseg⟩
  · refine ⟨rfl, ?_⟩
    intro seg hseg
    simp only [List.mem_singleton] at hseg
    subst hseg
    dsimp only
    split <;> simp [hhf]

/-- In LAST_ACK or CLOSED with no FIN queued, tick keeps the state, stamps
no fin_seq and emits no FIN. -/
theorem tick_quiet (s : TcpSocket) (now : Int)
    (hst : s.state = TcpState.LastAck ∨ s.state = TcpState.Closed)
    (hfs : s.fin_seq = none) (hhf : s.header.fin = false) :
    ∀ r, s.tick now = some r →
      r.1.state = s.state ∧ r.1.fin_seq = none ∧ r.1.header.fin = false ∧
      ∀ seg ∈ r.2.1, seg.header.fin = false := by
  intro r hr0
  unfold TcpSocket.tick at hr0
  dsimp only at hr0
  split at hr0
  · split at hr0
    · split at hr0
      · replace hr0 := Option.some.inj hr0
        subst hr0
        refine ⟨rfl, hfs, hhf, ?_⟩
        intro seg hseg
        simp only [List.mem_singleton] at hseg
        subst hseg
        exact hhf
      · split at hr0
        · next hcond =>
            rw [show ({ s with
                timers := mapFilter s.timers
                  (fun k => decide (s.send_unack ≤ k)) } : TcpSocket).fin_seq
                = s.fin_seq from rfl, hfs] at hcond
            exact absurd hcond (by simp)
        · split at hr0
          · exact absurd hr0 (by simp)
          · replace hr0 := Option.some.inj hr0
            subst hr0
            refine ⟨rfl, hfs, hhf, ?_⟩
            intro seg hseg
            simp only [List.mem_singleton] at hseg
            subst hseg
            exact hhf
    · replace hr0 := Option.some.inj hr0
      subst hr0
      exact ⟨rfl, hfs, hhf, by intro seg hseg; simp at hseg⟩
  · split at hr0
    · next hcond =>
        rcases hst with hs | hs <;> simp [hs] at hcond
    · split at hr0
      · split at hr0 <;> (replace hr0 := Option.some.inj hr0; subst hr0)
        · exact ⟨rfl, hfs, hhf, by intro seg hseg; simp at hseg⟩
        · exact ⟨rfl, hfs, hhf, by intro seg hseg; simp at hseg⟩
      · replace hr0 := Option.some.inj hr0
        subst hr0
        exact ⟨rfl, hfs, hhf, by intro seg hseg; simp at hseg⟩

/-- One step preserves the quiet LAST_ACK/CLOSED configuration and emits no
FIN. -/
theorem step_quiet (s : TcpSocket) (op : TcpOp)
    (hst : s.state = TcpState.LastAck ∨ s.state = TcpState.Closed)
    (hfs : s.fin_seq = none) (hhf : s.header.fin = false) :
    ∀ r, s.step op = some r →
      (r.1.state = TcpState.LastAck ∨ r.1.state = TcpState.Closed) ∧
      r.1.fin_seq = none ∧ r.1.header.fin = false ∧
      ∀ seg ∈ r.2, seg.header.fin = false := by
  intro r hr0
  cases op with
  | onPacket pkt now =>
      replace hr0 : s.on_packet pkt now = some r := hr0
      rcases hst with hs | hs
      · have hop : s.on_packet pkt now = s.dataStep pkt now := by
          unfold TcpSocket.on_packet
          rw [hs]
        rw [hop] at hr0
        exact dataStep_quiet s pkt now hs hfs hhf r hr0
      · have hop : s.on_packet pkt now = some (s.closedStep pkt) := by
          unfold TcpSocket.on_packet
          rw [hs]
        rw [hop] at hr0
        replace hr0 := Option.some.inj hr0
        subst hr0
        have hcq := closedStep_quiet s pkt hhf
        refine ⟨Or.inr (by rw [hcq.1]; exact hs), by rw [hcq.1]; exact hfs,
                by rw [hcq.1]; exact hhf, hcq.2⟩
  | tickAt now =>
      replace hr0 : (s.tick now).map (fun q => (q.1, q.2.1)) = some r := hr0
      cases hq : s.tick now with
      | none => rw [hq] at hr0; exact absurd hr0 (by simp)
      | some q =>
          rw [hq] at hr0
          simp only [Option.map_some'] at hr0
          replace hr0 := Option.some.inj hr0
          subst hr0
          have ht := tick_quiet s now hst hfs hhf q hq
          exact ⟨by rw [ht.1]; exact hst, ht.2.1, ht.2.2.1, ht.2.2.2⟩
  | writeOp payload now =>
      replace hr0 : (s.write payload now).map (fun q => (q.1, q.2.1)) = some r := hr0
      rw [write_notConnected s payload now
          (by rcases hst with hs | hs <;> simp [hs])] at hr0
      simp only [Option.map_some'] at hr0
      replace hr0 := Option.some.inj hr0
      subst hr0
      exact ⟨hst, hfs, hhf, by intro seg hseg; simp at hseg⟩
  | readOp bufLen =>
      replace hr0 : some ((s.read bufLen).1, ([] : List Segment)) = some r := hr0
      replace hr0 := Option.some.inj hr0
      subst hr0
      have hp := read_preserve s bufLen
      refine ⟨by rw [hp.1]; exact hst, by rw [hp.2.1]; exact hfs,
              by rw [hp.2.2]; exact hhf, by intro seg hseg; simp at hseg⟩
  | closeOp now =>
      replace hr0 : some (s.close now, ([] : List Segment)) = some r := hr0
      replace hr0 := Option.some.inj hr0
      subst hr0
      rw [close_quiet s now hst]
      exact ⟨hst, hfs, hhf, by intro seg hseg; simp at hseg⟩

/-- Any operation sequence preserves the quiet LAST_ACK/CLOSED configuration
and emits no FIN. -/
theorem run_quiet (s : TcpSocket) (ops : List TcpOp)
    (hst : s.state = TcpState.LastAck ∨ s.state = TcpState.Closed)
    (hfs : s.fin_seq = none) (hhf : s.header.fin = false) :
    ∀ r, s.run ops = some r →
      (r.1.state = TcpState.LastAck ∨ r.1.state = TcpState.Closed) ∧
      r.1.fin_seq = none ∧ r.1.header.fin = false ∧
      ∀ seg ∈ r.2, seg.header.fin = false := by
  induction ops generalizing s with
  | nil =>
      intro r hr0
      replace hr0 := Option.some.inj hr0
      subst hr0
      exact ⟨hst, hfs, hhf, by intro seg hseg; simp at hseg⟩
  | cons op ops ih =>
      intro r hr0
      unfold TcpSocket.run at hr0
      cases hs1 : s.step op with
      | none => rw [hs1] at hr0; exact absurd hr0 (by simp)
      | some q =>
          rw [hs1] at hr0
          dsimp only at hr0
          cases hrest : q.1.run ops with
          | none =>
              rw [hrest] at hr0
              exact absurd hr0 (by simp)
          | some q2 =>
              rw [hrest] at hr0
              dsimp only at hr0
              replace hr0 := Option.some.inj hr0
              subst hr0
              have h1 := step_quiet s op hst hfs hhf q hs1
              have h2 := ih q.1 h1.1 h1.2.1 h1.2.2.1 q2 hrest
              refine ⟨h2.1, h2.2.1, h2.2.2.1, ?_⟩
              intro seg hseg
              rcases List.mem_append.mp hseg with hm | hm
              · exact h1.2.2.2 seg hm
              · exact h2.2.2.2 seg hm

/-- C10 (confirmed): close() on a CLOSE_WAIT TCB with no FIN queued moves it
to LAST_ACK, and from there no sequence of operations (inbound segments,
ticks, reads, writes, closes) ever stamps fin_seq or transmits a segment
with the FIN flag: the only code path that stamps fin_seq and sends a FIN is
tick's queue-empty branch, which fires only in FIN_WAIT_1, a state that is
unreachable from LAST_ACK/CLOSED. -/
theorem C10_no_fin_after_close (s : TcpSocket) (now : Int)
    (h1 : s.state = TcpState.CloseWait) (h2 : s.fin_seq = none)
    (h3 : s.header.fin = false) :
    (s.close now).state = TcpState.LastAck ∧
    ∀ ops r, (s.close now).run ops = some r →
      r.1.fin_seq = none ∧ ∀ seg ∈ r.2, seg.header.fin = false := by
  have hc : s.close now = s.set_state TcpState.LastAck now := by
    unfold TcpSocket.close
    rw [h1]
  constructor
  · rw [hc]
    rfl
  intro ops r hr0
  have hq := run_quiet (s.close now) ops
    (by rw [hc, set_state_state]; exact Or.inl rfl)
    (by rw [hc, set_state_fin_seq]; exact h2)
    (by rw [hc, set_state_header]; exact h3) r hr0
  exact ⟨hq.2.1, hq.2.2.2⟩

/-- Witness for C10_no_fin_after_close: closing the CLOSE_WAIT demoCW and
running a tick, an inbound ACK, a write, a read, a close and another tick
leaves fin_seq = None and every one of the transmitted segments has the FIN
flag clear. -/
theorem C10_no_fin_after_close_witness :
    demoCW.state = TcpState.CloseWait ∧ demoCW.fin_seq = none ∧
    demoCW.header.fin = false ∧ (demoCW.close 0).state = TcpState.LastAck ∧
    c10pair.1.fin_seq = none ∧
    c10pair.2.map (fun seg => seg.header.fin) = [false, false] := by
  have h := C10_no_fin_after_close demoCW 0 rfl rfl rfl
  exact ⟨rfl, rfl, rfl, h.1, (h.2 c10ops c10pair rfl).1, by decide⟩

end Tapstack
